import Mathlib

/-!
Verification of the gateway-state reconciliation core of
`ceph_iscsi_config/gateway.py` (class `GWTarget`).

The Python class is shallowly embedded: the kernel-resident LIO state
(target / TPGs / LUNs / ALUA groups), the shared configuration record and
the `GWTarget` object are explicit Lean structures; every method becomes a
pure state-transforming function.  Kernel calls that can fail with
`RTSLibError` are driven by boolean oracles passed to the functions
(`targetOk`, `tpgOk ip`, `lunOk name tag`).  Python exceptions that escape
a method are modelled with `Except PyError`.
-/

/-- Kinds of Python exceptions that can escape the modelled methods. -/
inductive PyError
  | rtslib   -- an `RTSLibError` raised past a method boundary
  | attr     -- `AttributeError` (method call on `None`)
  | key      -- `KeyError` from a missing config-dictionary entry
  | value    -- `ValueError` (`int()` parse failure, `list.remove` miss)
deriving DecidableEq, Repr

/-- A kernel storage object (`stg_object` / rtslib `StorageObject`):
a block device with a name and its configFS path
(e.g. `/sys/kernel/config/target/core/iblock_1/ansible4`). -/
structure StorageObject where
  name : String
  path : String
deriving DecidableEq, Repr

/-- A LUN: the binding of a storage object into a TPG under a numeric id. -/
structure LUN where
  id : Nat
  stg : StorageObject
deriving DecidableEq, Repr

/-- A target portal group as visible through rtslib: its numeric tag,
the IPs of its bound network portals, the enable state, whether the
`tpg_enabled_sendtargets` attribute was set to `'0'`, and its LUNs. -/
structure TPG where
  tag : Nat
  portals : List String
  enabled : Bool
  sendtargetsOff : Bool
  luns : List LUN
deriving DecidableEq, Repr

/-- An ALUA target port group (`ceph_iscsi_config.alua.ALUATargetPortGroup`):
the recorded TPG tag (`tpg_id`), the ALUA attribute fields the binder sets,
and the `(tpg tag, lun id)` pairs bound into the group. -/
structure ALUAGroup where
  tpg_id : Nat
  alua_access_state : Nat
  alua_access_type : Nat
  alua_support_offline : Nat
  alua_support_unavailable : Nat
  alua_support_standby : Nat
  nonop_delay_msecs : Nat
  bound_luns : List (Nat × Nat)
deriving DecidableEq, Repr

/-- The per-node metadata dictionary stored under `config["gateways"][host]`. -/
structure GatewayEntry where
  portal_ip_address : String
  iqn : String
  active_luns : Nat
  tpgs : Nat
  inactive_portal_ips : List String
  gateway_ip_list : List String
deriving DecidableEq, Repr

/-- Modelled from the spec: the shared cluster configuration record
(`ceph_iscsi_config.common.Config` is not under `src/`).  Per spec §3/§6 it
is a nested mapping: the `"gateways"` section holds the global `iqn` and
`ip_list` items plus one entry per node, and the `"disks"` section maps a
volume name to its `owner` node.  `commits` counts `commit()` calls. -/
structure Config where
  iqn_item : Option String
  ip_list_item : Option (List String)
  gateways : List (String × GatewayEntry)
  disks : List (String × String)
  commits : Nat
deriving DecidableEq, Repr

/-- The kernel-resident LIO state outside the target's TPG tree: whether a
target with the gateway's IQN exists, the target's TPGs, the defined
storage objects, and the ALUA groups keyed by `(storage name, group name)`. -/
structure Kernel where
  target_exists : Bool
  tpgs : List TPG
  storage_objects : List StorageObject
  alua : List ((String × String) × ALUAGroup)
deriving DecidableEq, Repr

/-- The mutable state of a `GWTarget` instance. -/
structure GWTarget where
  error : Bool
  error_msg : String
  enable_portal : Bool
  iqn : String
  active_portal_ip : String
  gateway_ip_list : List String
  changes_made : Bool
  config_updated : Bool
  target : Option String
  tpg_list : List TPG
deriving DecidableEq, Repr

/-- The whole modelled world: the `GWTarget` object, the kernel state and
the shared configuration record. -/
structure World where
  gw : GWTarget
  kernel : Kernel
  cfg : Config
deriving DecidableEq, Repr

/-- Python-dictionary lookup (`d[k]` as an option, `None` for `KeyError`). -/
def pylookup {κ α : Type} [DecidableEq κ] : List (κ × α) → κ → Option α
  | [], _ => none
  | e :: rest, k => if e.1 = k then some e.2 else pylookup rest k

/-- `GWTarget.__init__`: the address matcher.  `local_ips` stands for
`ipv4_addresses()` (host interface enumeration, an external collaborator).
The Python code intersects the configured portal list with the local IPs,
aborts with the error flag set when the intersection is empty, and
otherwise picks one matching address (`list(matching_ip)[0]`; the model
picks the first match in list order, a deterministic representative of the
implementation-defined choice). -/
def gwInit (iqn : String) (gateway_ip_list : List String)
    (local_ips : List String) (enable_portal : Bool) : GWTarget :=
  match gateway_ip_list.filter (fun ip => local_ips.contains ip) with
  | [] =>
      { error := true
        error_msg := "gateway IP addresses provided do not match any ip on this host"
        enable_portal := enable_portal, iqn := iqn
        active_portal_ip := "", gateway_ip_list := []
        changes_made := false, config_updated := false
        target := none, tpg_list := [] }
  | ip :: _ =>
      { error := false, error_msg := ""
        enable_portal := enable_portal, iqn := iqn
        active_portal_ip := ip, gateway_ip_list := gateway_ip_list
        changes_made := false, config_updated := false
        target := none, tpg_list := [] }

/-- `GWTarget._get_portals`: the portal IPs bound to a TPG. -/
def get_portals (tpg : TPG) : List String := tpg.portals

/-- rtslib tag allocation for `TPG(self.target)` with no explicit tag: the
next free tag, modelled as one past the largest tag of the target's
current TPGs (tags start at 1). -/
def next_tpg_tag (tpg_list : List TPG) : Nat :=
  (tpg_list.foldl (fun m t => max m t.tag) 0) + 1

/-- `GWTarget.create_tpg(ip)`: create one TPG.  `ok` is the kernel oracle
for this call (`False` stands for an `RTSLibError` from any of the rtslib
calls inside the method's `try`, which the method catches, setting the
error flag and appending nothing).  On success: for the active portal IP a
network portal is bound only when `enable_portal` is set and the TPG is
enabled; for any other IP a portal is bound, the TPG is disabled and
`tpg_enabled_sendtargets` is set to `'0'`.  The TPG is appended to both
the kernel target and `tpg_list`, and `changes_made` is set. -/
def create_tpg (ok : Bool) (w : World) (ip : String) : World :=
  if ok then
    let tpg : TPG :=
      if ip = w.gw.active_portal_ip then
        { tag := next_tpg_tag w.gw.tpg_list
          portals := if w.gw.enable_portal then [ip] else []
          enabled := true, sendtargetsOff := false, luns := [] }
      else
        { tag := next_tpg_tag w.gw.tpg_list
          portals := [ip]
          enabled := false, sendtargetsOff := true, luns := [] }
    { w with
      gw := { w.gw with tpg_list := w.gw.tpg_list ++ [tpg], changes_made := true }
      kernel := { w.kernel with tpgs := w.kernel.tpgs ++ [tpg] } }
  else
    { w with gw := { w.gw with error := true, error_msg := "RTSLibError" } }

/-- The membership test `portal_ip in self._get_portals(tpg)`. -/
def portalHit (portal_ip : String) (tpg : TPG) : Bool :=
  (get_portals tpg).contains portal_ip

/-- One iteration of the matching pass in `GWTarget.check_tpgs`: for the
requested `portal_ip`, scan the not-yet-consumed TPGs in order; on the
first TPG exposing that IP, remove the IP from the requested list and the
TPG from the candidate list (`list.remove` drops the first occurrence). -/
def tpgStep (acc : List String × List TPG) (portal_ip : String) :
    List String × List TPG :=
  match acc.2.find? (portalHit portal_ip) with
  | some tpg => (acc.1.erase portal_ip, acc.2.erase tpg)
  | none => acc

/-- The requested portal IPs left unmatched after `check_tpgs`'s matching
pass over the current TPG list (the missing-IP diff). -/
def missing_tpg_ips (gateway_ip_list : List String) (tpg_list : List TPG) :
    List String :=
  (gateway_ip_list.foldl tpgStep (gateway_ip_list, tpg_list)).1

/-- `GWTarget.check_tpgs`: the portal-group reconciler.  Computes the
missing-IP diff and creates one TPG per missing IP, in their original
order. -/
def check_tpgs (tpgOk : String → Bool) (w : World) : World :=
  let missing := missing_tpg_ips w.gw.gateway_ip_list w.gw.tpg_list
  missing.foldl (fun acc ip => create_tpg (tpgOk ip) acc ip) w

/-- `GWTarget.delete`: `self.target.delete()`.  When `self.target` is still
`None` (the target was never created) the attribute access on `None`
raises `AttributeError`; otherwise the kernel target and its TPGs are
removed. -/
def gwDelete (w : World) : Except PyError World :=
  match w.gw.target with
  | none => .error .attr
  | some _ =>
      .ok { w with kernel := { w.kernel with target_exists := false, tpgs := [] } }

/-- `GWTarget.create_target`: create the iSCSI target, then one TPG per
portal IP in `gateway_ip_list` order (per-IP failures are logged, the loop
continues).  If the error flag is set afterwards — by the target creation
itself or by any TPG creation — `self.delete()` is invoked; otherwise
`changes_made` is set.  A failed target creation leaves `self.target` as
`None`, so the rollback call raises `AttributeError`. -/
def create_target (targetOk : Bool) (tpgOk : String → Bool) (w : World) :
    Except PyError World :=
  if targetOk then
    let w1 : World :=
      { w with
        gw := { w.gw with target := some w.gw.iqn }
        kernel := { w.kernel with target_exists := true } }
    let w2 := w.gw.gateway_ip_list.foldl (fun acc ip => create_tpg (tpgOk ip) acc ip) w1
    if w2.gw.error then gwDelete w2
    else .ok { w2 with gw := { w2.gw with changes_made := true } }
  else
    gwDelete { w with gw := { w.gw with error := true, error_msg := "RTSLibError" } }

/-- `GWTarget.load_config`: fetch the (single) existing target and all its
TPGs from the kernel into this object. -/
def load_config (w : World) : World :=
  { w with
    gw := { w.gw with
              target := some w.gw.iqn
              tpg_list := w.gw.tpg_list ++ w.kernel.tpgs } }

/-! ### The matching pass of `check_tpgs`, instrumented

`matchedIps s c` / `unmatchedIps s c` / `leftoverTpgs s c` replay the
matching pass over the requested IPs `s` against candidate TPGs `c`,
returning respectively the requested occurrences that found a TPG, the
ones that did not, and the TPGs left unconsumed. -/

def matchedIps : List String → List TPG → List String
  | [], _ => []
  | ip :: rest, c =>
    match c.find? (portalHit ip) with
    | some tpg => ip :: matchedIps rest (c.erase tpg)
    | none => matchedIps rest c

def unmatchedIps : List String → List TPG → List String
  | [], _ => []
  | ip :: rest, c =>
    match c.find? (portalHit ip) with
    | some tpg => unmatchedIps rest (c.erase tpg)
    | none => ip :: unmatchedIps rest c

def leftoverTpgs : List String → List TPG → List TPG
  | [], c => c
  | ip :: rest, c =>
    match c.find? (portalHit ip) with
    | some tpg => leftoverTpgs rest (c.erase tpg)
    | none => leftoverTpgs rest c

/-- Erase from `r` the first occurrence of each element of `m` in turn
(the cumulative effect of the `requested_tpg_ips.remove(...)` calls). -/
def eraseAll (r m : List String) : List String :=
  m.foldl (fun acc v => acc.erase v) r

/-- A world used in C1's counterexample: `enable_portal=False` and the
node's active portal IP in the configured list. -/
def wCE1 : World :=
  { gw := { error := false, error_msg := "", enable_portal := false,
            iqn := "iqn.x", active_portal_ip := "10.0.0.1",
            gateway_ip_list := ["10.0.0.1"], changes_made := false,
            config_updated := false, target := some "iqn.x", tpg_list := [] }
    kernel := { target_exists := true, tpgs := [], storage_objects := [], alua := [] }
    cfg := { iqn_item := none, ip_list_item := none, gateways := [], disks := [],
             commits := 0 } }

/-- A world used in witnesses: a two-portal gateway with portal creation
enabled and no TPGs yet. -/
def wW1 : World :=
  { gw := { error := false, error_msg := "", enable_portal := true,
            iqn := "iqn.x", active_portal_ip := "10.0.0.1",
            gateway_ip_list := ["10.0.0.1", "10.0.0.2"], changes_made := false,
            config_updated := false, target := some "iqn.x", tpg_list := [] }
    kernel := { target_exists := true, tpgs := [], storage_objects := [], alua := [] }
    cfg := { iqn_item := none, ip_list_item := none, gateways := [], disks := [],
             commits := 0 } }

/-- A fresh three-portal world (no TPGs yet) whose active portal is `ip1`,
used for the TPG-ordering-stability claim. -/
def w8 (ip1 ip2 ip3 : String) : World :=
  { gw := { error := false, error_msg := "", enable_portal := true,
            iqn := "iqn.x", active_portal_ip := ip1,
            gateway_ip_list := [ip1, ip2, ip3], changes_made := false,
            config_updated := false, target := some "iqn.x", tpg_list := [] }
    kernel := { target_exists := true, tpgs := [], storage_objects := [], alua := [] }
    cfg := { iqn_item := none, ip_list_item := none, gateways := [], disks := [],
             commits := 0 } }

/-- A fresh-kernel world (no target yet) for C5's counterexample. -/
def wCE5 : World :=
  { gw := { error := false, error_msg := "", enable_portal := true,
            iqn := "iqn.x", active_portal_ip := "10.0.0.1",
            gateway_ip_list := ["10.0.0.1"], changes_made := false,
            config_updated := false, target := none, tpg_list := [] }
    kernel := { target_exists := false, tpgs := [], storage_objects := [], alua := [] }
    cfg := { iqn_item := none, ip_list_item := none, gateways := [], disks := [],
             commits := 0 } }

/-- Decimal digit list of `n` (most significant first), fuel-based so that
it reduces by kernel evaluation; `natDecimal` below renders the same
decimal text as Python's `"{}".format(tag)`. -/
def natDigitsAux : Nat → Nat → List Char
  | 0, _ => []
  | fuel + 1, n =>
    if n = 0 then [] else natDigitsAux fuel (n / 10) ++ [Nat.digitChar (n % 10)]

/-- Decimal rendering of a natural number. -/
def natDecimal (n : Nat) : String :=
  if n = 0 then "0" else String.mk (natDigitsAux (n + 1) n)

/-- Left fold reading a decimal digit string back into a number. -/
def decDecode (cs : List Char) : Nat :=
  cs.foldl (fun a c => a * 10 + (c.toNat - 48)) 0

/-- Modelled from the spec: `ALUATargetPortGroup(stg_object, name, tag)`
from `ceph_iscsi_config.alua` is not under `src/`.  Per spec §6
(`createOrGetALUAGroup(storageObject, name) -> ALUAGroup | AlreadyExists`)
and §4.5, constructing the group creates it in the kernel recording the
given TPG tag as `tpg_id`, and reports `AlreadyExists` (an `RTSLibError`)
when a group of that name already exists for the storage object —
modelled as `none`. -/
def alua_create (alua : List ((String × String) × ALUAGroup))
    (key : String × String) (tag : Nat) : Option ALUAGroup :=
  match pylookup alua key with
  | some _ => none
  | none => some { tpg_id := tag, alua_access_state := 0, alua_access_type := 0,
                   alua_support_offline := 0, alua_support_unavailable := 0,
                   alua_support_standby := 0, nonop_delay_msecs := 0,
                   bound_luns := [] }

/-- Modelled from the spec: `ALUATargetPortGroup(stg_object, name)` with no
tag re-attaches to the pre-existing group of that name (spec §4.5
"re-attach to the pre-existing group by name instead of failing"). -/
def alua_get (alua : List ((String × String) × ALUAGroup))
    (key : String × String) : Option ALUAGroup :=
  pylookup alua key

/-- Store the (possibly new) state of the group named `key` back into the
kernel's ALUA table. -/
def alua_set (alua : List ((String × String) × ALUAGroup)) (key : String × String)
    (g : ALUAGroup) : List ((String × String) × ALUAGroup) :=
  match pylookup alua key with
  | some _ => alua.map (fun e => if e.1 = key then (key, g) else e)
  | none => alua ++ [(key, g)]

/-- `GWTarget.bind_alua_group_to_lun`: resolve the TPG's portal IP (from
the argument or the TPG's first network portal; a portal-less TPG makes
the call a no-op), look up the volume's owner and the owner's portal
address in the shared record (`KeyError` escapes on a missing entry), and
bind the LUN to the "ao" group (owner match) or the "ano<tag>" group
(mismatch).  Group creation raising already-exists re-attaches by name;
a re-attached group whose recorded `tpg_id` differs from the TPG's tag
raises `RTSLibError` (topology mismatch).  The access-state is written
only on the fresh-creation path; the remaining ALUA attribute fields are
set unconditionally, then the LUN is bound into the group. -/
def bind_alua_group_to_lun (cfg : Config)
    (alua : List ((String × String) × ALUAGroup))
    (lun : LUN) (tpg : TPG) (tpg_ip_address : Option String) :
    Except PyError (List ((String × String) × ALUAGroup)) :=
  match pylookup cfg.disks lun.stg.name with
  | none => .error .key
  | some owning_gw =>
    match (match tpg_ip_address with
           | some ip => some ip
           | none => tpg.portals.head?) with
    | none => .ok alua
    | some tpg_ip =>
      match pylookup cfg.gateways owning_gw with
      | none => .error .key
      | some gwe =>
        let group_name := if gwe.portal_ip_address = tpg_ip then "ao"
                          else "ano" ++ natDecimal tpg.tag
        let key := (lun.stg.name, group_name)
        match (match alua_create alua key tpg.tag with
               | some g =>
                   Except.ok { g with alua_access_state :=
                       if gwe.portal_ip_address = tpg_ip then 0 else 1 }
               | none =>
                   match alua_get alua key with
                   | some g =>
                       if g.tpg_id ≠ tpg.tag then Except.error PyError.rtslib
                       else Except.ok g
                   | none => Except.error PyError.rtslib) with
        | .error e => .error e
        | .ok g =>
            .ok (alua_set alua key
              { g with alua_access_type := 1, alua_support_offline := 0,
                       alua_support_unavailable := 0, alua_support_standby := 0,
                       nonop_delay_msecs := 0,
                       bound_luns := g.bound_luns ++ [(tpg.tag, lun.id)] })

/-- Python `str.split(sep)` for a one-character separator, over the
character list (empty input gives one empty field, like Python). -/
def splitOnChar (sep : Char) : List Char → List (List Char)
  | [] => [[]]
  | c :: rest =>
    if c = sep then [] :: splitOnChar sep rest
    else
      match splitOnChar sep rest with
      | [] => [[c]]
      | grp :: gs => (c :: grp) :: gs

/-- Python `int(text)` on a field of a kernel path: the decimal value when
the field is all digits, `none` (a `ValueError`) otherwise. -/
def pyInt? (cs : List Char) : Option Nat :=
  if cs = [] then none
  else if cs.all (fun c => 48 ≤ c.toNat && c.toNat ≤ 57) then some (decDecode cs)
  else none

/-- The LUN id derivation in `map_luns`:
`int(stg_object._path.split('/')[-2].split('_')[1])` — the iblock slot
number from the volume's kernel path.  `none` models the
`IndexError`/`ValueError` a malformed path raises. -/
def lun_id_of_path (path : String) : Option Nat :=
  match (splitOnChar '/' path.data).reverse[1]? with
  | none => none
  | some seg =>
    match (splitOnChar '_' seg)[1]? with
    | none => none
    | some numtext => pyInt? numtext

/-- `GWTarget.lun_mapped`: is the storage object already mapped into this
TPG (linear scan of the TPG's LUNs by volume name)? -/
def lun_mapped (tpg : TPG) (storage_object : StorageObject) : Bool :=
  tpg.luns.any (fun l => l.stg.name == storage_object.name)

/-- The inner (per-TPG) loop of `map_luns` for one storage object,
iterating TPG-list positions (LUN creation mutates the TPG in place).
Already-mapped TPGs are skipped; a LUN creation failure records the error
and breaks out of the TPG loop; after a successful creation the ALUA
binder runs (its raise propagates). -/
def map_stg_go (lunOk : String → Nat → Bool) (cfg : Config) (stg : StorageObject) :
    List Nat → World → Except PyError World
  | [], w => .ok w
  | i :: rest, w =>
    match w.gw.tpg_list[i]? with
    | none => .ok w
    | some tpg =>
      if lun_mapped tpg stg then map_stg_go lunOk cfg stg rest w
      else
        match lun_id_of_path stg.path with
        | none => .error .value
        | some lun_id =>
          if lunOk stg.name tpg.tag then
            let lun : LUN := { id := lun_id, stg := stg }
            let tpg2 : TPG := { tpg with luns := tpg.luns ++ [lun] }
            let w1 : World :=
              { w with gw := { w.gw with
                                 tpg_list := w.gw.tpg_list.set i tpg2
                                 changes_made := true } }
            match bind_alua_group_to_lun cfg w1.kernel.alua lun tpg2 none with
            | .error e => .error e
            | .ok alua2 =>
                map_stg_go lunOk cfg stg rest
                  { w1 with kernel := { w1.kernel with alua := alua2 } }
          else
            .ok { w with gw := { w.gw with
                                   error := true
                                   error_msg := "RTSLibError" } }

/-- The outer (per-volume) loop of `map_luns`. -/
def map_luns_go (lunOk : String → Nat → Bool) (cfg : Config) :
    List StorageObject → World → Except PyError World
  | [], w => .ok w
  | stg :: rest, w =>
    match map_stg_go lunOk cfg stg (List.range w.gw.tpg_list.length) w with
    | .error e => .error e
    | .ok w2 => map_luns_go lunOk cfg rest w2

/-- `GWTarget.map_luns`: bring every kernel storage object into the
gateway's TPGs. -/
def map_luns (lunOk : String → Nat → Bool) (cfg : Config) (w : World) :
    Except PyError World :=
  map_luns_go lunOk cfg w.kernel.storage_objects w

/-- The membership-record section of `manage('target')` (gateway.py lines
338-379): ensure the global `iqn` and `ip_list` items, ensure this node's
entry (creating it with computed metadata) or refresh it when the stored
`gateway_ip_list` differs from the current list, accumulating the
`config_updated` dirty flag.  Returns the updated record and the dirty
flag; `list.remove` of an absent active IP raises `ValueError`. -/
def update_gateway_record (this_host : String) (gw1 : GWTarget) (c0 : Config) :
    Except PyError (Config × Bool) :=
  let p1 : Config × Bool :=
    if c0.iqn_item.isNone then
      ({ c0 with iqn_item := some gw1.iqn }, true)
    else (c0, gw1.config_updated)
  let p2 : Config × Bool :=
    if p1.1.ip_list_item.isNone then
      ({ p1.1 with ip_list_item := some gw1.gateway_ip_list }, true)
    else p1
  match pylookup p2.1.gateways this_host with
  | none =>
    if gw1.active_portal_ip ∈ gw1.gateway_ip_list then
      Except.ok (({ p2.1 with gateways := p2.1.gateways ++
          [(this_host,
            { portal_ip_address := gw1.active_portal_ip
              iqn := gw1.iqn
              active_luns := 0
              tpgs := gw1.tpg_list.length
              inactive_portal_ips :=
                gw1.gateway_ip_list.erase gw1.active_portal_ip
              gateway_ip_list := gw1.gateway_ip_list })] }, true))
    else Except.error PyError.value
  | some gw_details =>
    if gw_details.gateway_ip_list ≠ gw1.gateway_ip_list then
      if gw1.active_portal_ip ∈ gw1.gateway_ip_list then
        Except.ok (({ p2.1 with gateways := p2.1.gateways.map (fun e =>
            if e.1 = this_host then
              (this_host,
               { gw_details with
                   tpgs := gw1.tpg_list.length
                   gateway_ip_list := gw1.gateway_ip_list
                   inactive_portal_ips :=
                     gw1.gateway_ip_list.erase gw1.active_portal_ip })
            else e) }, true))
      else Except.error PyError.value
    else Except.ok p2

/-- `GWTarget.manage(mode)`.  `cfgError` models the shared record failing
to load (`Config(...).error`); `this_host` is `socket.gethostname()`'s
short name.  The membership-record section follows the spec for
`Config.add_item` / `update_item` / `commit` (spec §4.6, §6 — `common.py`
is not under `src/`): ensure the global `iqn` and `ip_list` items, ensure
this node's entry (creating it with computed metadata) or refresh it when
the stored `gateway_ip_list` differs (`cmp(...) != 0`), and `commit()`
only when `config_updated` was set.  `list.remove` of an element not in
the list raises `ValueError` (modelled on the inactive-portal
computation); in 'map' mode an undefined target sets the error flag. -/
def manage (mode : String) (cfgError : Bool) (this_host : String)
    (targetOk : Bool) (tpgOk : String → Bool) (lunOk : String → Nat → Bool)
    (w : World) : Except PyError World :=
  if cfgError then
    .ok { w with gw := { w.gw with
                           error := true
                           error_msg := "config error" } }
  else if mode = "target" then
    match (if w.kernel.target_exists then .ok (check_tpgs tpgOk (load_config w))
           else create_target targetOk tpgOk w : Except PyError World) with
    | .error e => .error e
    | .ok w1 =>
      if w1.gw.error then .ok w1
      else
        match update_gateway_record this_host w1.gw w1.cfg with
        | .error e => .error e
        | .ok pr =>
          .ok { w1 with
                  cfg := if pr.2 then { pr.1 with commits := pr.1.commits + 1 }
                         else pr.1
                  gw := { w1.gw with config_updated := pr.2 } }
  else if mode = "map" then
    if w.kernel.target_exists then
      map_luns lunOk w.cfg (load_config w)
    else
      .ok { w with gw := { w.gw with
                             error := true
                             error_msg := "Attempted to map to a gateway that has not been defined yet" } }
  else .ok w

/-- Concrete fixtures for the ALUA witnesses. -/
def stgW : StorageObject :=
  { name := "vol1", path := "/sys/kernel/config/target/core/iblock_0/vol1" }

def lunW : LUN := { id := 0, stg := stgW }

def tpgW : TPG :=
  { tag := 1, portals := ["10.0.0.1"], enabled := true, sendtargetsOff := false,
    luns := [] }

def gweW : GatewayEntry :=
  { portal_ip_address := "10.0.0.1", iqn := "iqn.x", active_luns := 0, tpgs := 2,
    inactive_portal_ips := ["10.0.0.2"],
    gateway_ip_list := ["10.0.0.1", "10.0.0.2"] }

def cfgW : Config :=
  { iqn_item := some "iqn.x", ip_list_item := some ["10.0.0.1", "10.0.0.2"],
    gateways := [("gw1", gweW)], disks := [("vol1", "gw1")], commits := 0 }

/-- Every LUN mapped into any TPG carries the id derived from its storage
object's kernel path (the iblock slot number). -/
def lunIdsOK (w : World) : Prop :=
  ∀ t ∈ w.gw.tpg_list, ∀ l ∈ t.luns, lun_id_of_path l.stg.path = some l.id

def wW9 : World :=
  { gw := { error := false, error_msg := "", enable_portal := true,
            iqn := "iqn.x", active_portal_ip := "10.0.0.1",
            gateway_ip_list := ["10.0.0.1"], changes_made := false,
            config_updated := false, target := some "iqn.x", tpg_list := [tpgW] }
    kernel := { target_exists := true, tpgs := [tpgW],
                storage_objects := [stgW], alua := [] }
    cfg := cfgW }

def lun9out : LUN := { id := 0, stg := stgW }

def tpg9out : TPG :=
  { tag := 1, portals := ["10.0.0.1"], enabled := true, sendtargetsOff := false,
    luns := [lun9out] }

def w9out : World :=
  { gw := { error := false, error_msg := "", enable_portal := true,
            iqn := "iqn.x", active_portal_ip := "10.0.0.1",
            gateway_ip_list := ["10.0.0.1"], changes_made := true,
            config_updated := false, target := some "iqn.x",
            tpg_list := [tpg9out] }
    kernel := { target_exists := true, tpgs := [tpgW],
                storage_objects := [stgW],
                alua := [(("vol1", "ao"),
                  { tpg_id := 1, alua_access_state := 0, alua_access_type := 1,
                    alua_support_offline := 0, alua_support_unavailable := 0,
                    alua_support_standby := 0, nonop_delay_msecs := 0,
                    bound_luns := [(1, 0)] })] }
    cfg := cfgW }

def stgCE1 : StorageObject :=
  { name := "vol1", path := "/sys/kernel/config/target/core/iblock_1/vol1" }

def stgCE2 : StorageObject :=
  { name := "vol2", path := "/sys/kernel/config/target/core/iblock_2/vol2" }

def lunOkCE : String → Nat → Bool := fun nm tag => !(nm == "vol1" && tag == 1)

def cfgCE7 : Config :=
  { iqn_item := some "iqn.x", ip_list_item := some ["10.0.0.1", "10.0.0.2"],
    gateways := [("gw1",
      { portal_ip_address := "10.0.0.9", iqn := "iqn.x", active_luns := 0,
        tpgs := 2, inactive_portal_ips := [], gateway_ip_list := [] })],
    disks := [("vol1", "gw1"), ("vol2", "gw1")], commits := 0 }

def wCE7 : World :=
  { gw := { error := false, error_msg := "", enable_portal := true,
            iqn := "iqn.x", active_portal_ip := "10.0.0.1",
            gateway_ip_list := ["10.0.0.1", "10.0.0.2"], changes_made := false,
            config_updated := false, target := some "iqn.x",
            tpg_list := [{ tag := 1, portals := ["10.0.0.1"], enabled := true,
                           sendtargetsOff := false, luns := [] },
                         { tag := 2, portals := ["10.0.0.2"], enabled := false,
                           sendtargetsOff := true, luns := [] }] }
    kernel := { target_exists := true,
                tpgs := [{ tag := 1, portals := ["10.0.0.1"], enabled := true,
                           sendtargetsOff := false, luns := [] },
                         { tag := 2, portals := ["10.0.0.2"], enabled := false,
                           sendtargetsOff := true, luns := [] }]
                storage_objects := [stgCE1, stgCE2], alua := [] }
    cfg := cfgCE7 }

/-- The dirty-flag condition of `manage('target')`: some record field will
be added or updated during the run (global `iqn` or `ip_list` absent, this
node's entry absent, or the stored `gateway_ip_list` differing from the
current list). -/
def dirty_flag (c0 : Config) (host : String) (current : List String) : Bool :=
  c0.iqn_item.isNone || c0.ip_list_item.isNone ||
  (match pylookup c0.gateways host with
   | none => true
   | some e => decide (e.gateway_ip_list ≠ current))

def tpgkey (t : TPG) : Nat × Option String := (t.tag, t.portals.head?)

def ownerIp (cfg : Config) (n : String) : Option String :=
  match pylookup cfg.disks n with
  | none => none
  | some ow => (pylookup cfg.gateways ow).map (fun gwe => gwe.portal_ip_address)

def matchOwnerB (cfg : Config) (n : String) (p : Nat × Option String) : Bool :=
  match p.2, ownerIp cfg n with
  | some a, some b => a == b
  | _, _ => false

def AluaInv (pairs : List (Nat × Option String)) (cfg : Config)
    (alua : List ((String × String) × ALUAGroup)) : Prop :=
  ∀ n s g, pylookup alua (n, s) = some g →
    (s = "ao" → ∀ p ∈ pairs, matchOwnerB cfg n p = true → g.tpg_id = p.1) ∧
    (∀ k, s = "ano" ++ natDecimal k → g.tpg_id = k)

def SafeStg (cfg : Config) (pairs : List (Nat × Option String))
    (stg : StorageObject) : Prop :=
  (lun_id_of_path stg.path).isSome = true ∧
  (∃ ow, pylookup cfg.disks stg.name = some ow ∧
    (pylookup cfg.gateways ow).isSome = true) ∧
  pairs.countP (matchOwnerB cfg stg.name) ≤ 1

def gCE6 : ALUAGroup :=
  { tpg_id := 5, alua_access_state := 0, alua_access_type := 1,
    alua_support_offline := 0, alua_support_unavailable := 0,
    alua_support_standby := 0, nonop_delay_msecs := 0, bound_luns := [] }

def wCE6 : World :=
  { gw := { error := false, error_msg := "", enable_portal := true,
            iqn := "iqn.x", active_portal_ip := "10.0.0.1",
            gateway_ip_list := ["10.0.0.1"], changes_made := false,
            config_updated := false, target := some "iqn.x", tpg_list := [] }
    kernel := { target_exists := true, tpgs := [tpgW],
                storage_objects := [stgW], alua := [(("vol1", "ao"), gCE6)] }
    cfg := cfgW }

/-- C4: for every configured portal list `L` and set `S` of local interface
addresses, constructing the gateway fails with the no-matching-address
error state (error flag set, no target or TPG state touched) when `L ∩ S`
is empty, and otherwise succeeds selecting an active portal IP from
`L ∩ S`. -/
theorem C4_address_matcher (iqn : String) (L S : List String) (ep : Bool) :
    ((∀ ip ∈ L, ip ∉ S) →
      (gwInit iqn L S ep).error = true ∧ (gwInit iqn L S ep).tpg_list = [] ∧
        (gwInit iqn L S ep).target = none) ∧
    ((∃ ip ∈ L, ip ∈ S) →
      (gwInit iqn L S ep).error = false ∧
        (gwInit iqn L S ep).active_portal_ip ∈ L ∧
        (gwInit iqn L S ep).active_portal_ip ∈ S) := by
  rcases hfe : L.filter (fun ip => S.contains ip) with _ | ⟨hd, tl⟩
  · refine ⟨fun _ => ?_, fun ⟨ip, hipL, hipS⟩ => ?_⟩
    · unfold gwInit
      rw [hfe]
      exact ⟨rfl, rfl, rfl⟩
    · exfalso
      have hmem : ip ∈ L.filter (fun ip => S.contains ip) := by
        rw [List.mem_filter]
        exact ⟨hipL, by simpa using hipS⟩
      rw [hfe] at hmem
      cases hmem
  · have hhd : hd ∈ L.filter (fun ip => S.contains ip) := by
      rw [hfe]; exact List.mem_cons_self hd tl
    rw [List.mem_filter] at hhd
    refine ⟨fun hempty => absurd (by simpa using hhd.2) (hempty hd hhd.1), fun _ => ?_⟩
    unfold gwInit
    rw [hfe]
    exact ⟨rfl, hhd.1, by simpa using hhd.2⟩

/-- Witness for C4 at a concrete portal list and interface set. -/
theorem C4_address_matcher_witness :
    (gwInit "iqn.1994-05.com.redhat:rhel7-client"
        ["10.0.0.1", "10.0.0.2"] ["10.0.0.1"] true).error = false ∧
      (gwInit "iqn.1994-05.com.redhat:rhel7-client"
        ["10.0.0.1", "10.0.0.2"] ["10.0.0.1"] true).active_portal_ip ∈
          ["10.0.0.1", "10.0.0.2"] ∧
      (gwInit "iqn.1994-05.com.redhat:rhel7-client"
        ["10.0.0.1", "10.0.0.2"] ["10.0.0.1"] true).active_portal_ip ∈
          ["10.0.0.1"] :=
  (C4_address_matcher "iqn.1994-05.com.redhat:rhel7-client"
    ["10.0.0.1", "10.0.0.2"] ["10.0.0.1"] true).2 (by decide)

theorem eraseAll_nil (r : List String) : eraseAll r [] = r := rfl

theorem eraseAll_cons (r : List String) (v : String) (m : List String) :
    eraseAll r (v :: m) = eraseAll (r.erase v) m := rfl

/-- The matching-pass fold of `check_tpgs`, characterized: the requested
list ends up as the initial list minus the matched occurrences, and the
candidate list as the unconsumed TPGs. -/
theorem foldl_tpgStep_eq (s : List String) :
    ∀ (r : List String) (c : List TPG),
      s.foldl tpgStep (r, c) = (eraseAll r (matchedIps s c), leftoverTpgs s c) := by
  induction s with
  | nil => intro r c; rfl
  | cons ip rest ih =>
    intro r c
    rcases hfind : c.find? (portalHit ip) with _ | tpg
    · rw [List.foldl_cons]
      have hstep : tpgStep (r, c) ip = (r, c) := by
        simp only [tpgStep, hfind]
      rw [hstep, ih]
      simp only [matchedIps, leftoverTpgs, hfind]
    · rw [List.foldl_cons]
      have hstep : tpgStep (r, c) ip = (r.erase ip, c.erase tpg) := by
        simp only [tpgStep, hfind]
      rw [hstep, ih]
      simp only [matchedIps, leftoverTpgs, hfind, eraseAll_cons]

theorem count_matchedIps_le (s : List String) :
    ∀ (c : List TPG) (v : String), (matchedIps s c).count v ≤ s.count v := by
  induction s with
  | nil => intro c v; simp [matchedIps]
  | cons ip rest ih =>
    intro c v
    rcases hfind : c.find? (portalHit ip) with _ | tpg
    · simp only [matchedIps, hfind]
      calc (matchedIps rest c).count v ≤ rest.count v := ih c v
        _ ≤ (ip :: rest).count v := by
              rw [List.count_cons]; omega
    · simp only [matchedIps, hfind, List.count_cons]
      have := ih (c.erase tpg) v
      omega

theorem count_unmatchedIps (s : List String) :
    ∀ (c : List TPG) (v : String),
      (unmatchedIps s c).count v = s.count v - (matchedIps s c).count v := by
  induction s with
  | nil => intro c v; simp [unmatchedIps, matchedIps]
  | cons ip rest ih =>
    intro c v
    rcases hfind : c.find? (portalHit ip) with _ | tpg
    · simp only [unmatchedIps, matchedIps, hfind, List.count_cons]
      rw [ih c v]
      have := count_matchedIps_le rest c v
      omega
    · simp only [unmatchedIps, matchedIps, hfind, List.count_cons]
      rw [ih (c.erase tpg) v]
      have := count_matchedIps_le rest (c.erase tpg) v
      omega

theorem count_eraseAll (m : List String) :
    ∀ (r : List String) (v : String),
      (eraseAll r m).count v = r.count v - m.count v := by
  induction m with
  | nil => intro r v; simp [eraseAll_nil]
  | cons x m' ih =>
    intro r v
    rw [eraseAll_cons, ih, List.count_cons, List.count_erase]
    rcases eq_or_ne x v with h | h
    · subst h
      simp only [beq_self_eq_true, if_true]
      omega
    · have hb : (x == v) = false := beq_false_of_ne h
      rw [hb]
      simp only [Bool.false_eq_true, if_false]
      omega

/-- The missing-IP diff counts exactly the unmatched requested occurrences. -/
theorem count_missing_tpg_ips (gwl : List String) (c : List TPG) (v : String) :
    (missing_tpg_ips gwl c).count v = (unmatchedIps gwl c).count v := by
  rw [missing_tpg_ips, foldl_tpgStep_eq, count_eraseAll, count_unmatchedIps]

theorem eraseAll_self (l : List String) : eraseAll l l = [] := by
  induction l with
  | nil => rfl
  | cons x xs ih =>
    rw [eraseAll_cons, List.erase_cons_head]
    exact ih

/-- Key lemma for reconciler idempotence: if the extra TPGs `nr` appended
after the candidates `c` each expose exactly one portal IP, with enough of
them to cover every requested occurrence that fails to match within `c`,
then a matching pass over `c ++ nr` matches every requested IP (the final
requested list is the initial one minus every processed occurrence). -/
theorem run2_all_match (s : List String) :
    ∀ (c nr : List TPG) (r : List String),
      (∀ t ∈ nr, ∃ v, get_portals t = [v]) →
      (∀ v, (unmatchedIps s c).count v ≤ nr.countP (portalHit v)) →
      (s.foldl tpgStep (r, c ++ nr)).1 = eraseAll r s := by
  induction s with
  | nil => intro c nr r _ _; rfl
  | cons ip rest ih =>
    intro c nr r hsingle hcount
    rcases hfind : c.find? (portalHit ip) with _ | t
    · -- no match within c: the pass must consume one of the extra TPGs
      have hpos : 0 < nr.countP (portalHit ip) := by
        have h := hcount ip
        simp only [unmatchedIps, hfind, List.count_cons, beq_self_eq_true, if_true] at h
        omega
      have hfs : (nr.find? (portalHit ip)).isSome := by
        rw [List.find?_isSome]
        exact List.countP_pos_iff.mp hpos
      obtain ⟨t2, ht2⟩ := Option.isSome_iff_exists.mp hfs
      have hpt2 : portalHit ip t2 = true := List.find?_some ht2
      have ht2mem : t2 ∈ nr := List.mem_of_find?_eq_some ht2
      have ht2nc : t2 ∉ c := fun hc => (List.find?_eq_none.mp hfind t2 hc) hpt2
      have hfind2 : (c ++ nr).find? (portalHit ip) = some t2 := by
        rw [List.find?_append, hfind]
        simpa using ht2
      have hstep : tpgStep (r, c ++ nr) ip = (r.erase ip, c ++ nr.erase t2) := by
        simp only [tpgStep, hfind2]
        rw [List.erase_append_right _ ht2nc]
      rw [List.foldl_cons, hstep, eraseAll_cons]
      obtain ⟨u, hu⟩ := hsingle t2 ht2mem
      have hup : get_portals t2 = [ip] := by
        have hcontains : (get_portals t2).contains ip = true := hpt2
        rw [hu] at hcontains
        simp only [List.contains_cons, List.contains_nil, Bool.or_false,
          beq_iff_eq] at hcontains
        rw [hu, hcontains]
      refine ih c (nr.erase t2) (r.erase ip)
        (fun t ht => hsingle t (List.mem_of_mem_erase ht)) ?_
      intro v
      obtain ⟨l₁, l₂, _, hnr_eq, herase⟩ := List.exists_erase_eq ht2mem
      have hc := hcount v
      simp only [unmatchedIps, hfind, List.count_cons] at hc
      rw [herase, List.countP_append]
      rw [hnr_eq, List.countP_append, List.countP_cons] at hc
      have hpv : portalHit v t2 = (ip == v) := by
        simp only [portalHit, hup, List.contains_cons, List.contains_nil,
          Bool.or_false]
        rcases eq_or_ne ip v with h | h
        · subst h; simp
        · rw [beq_false_of_ne h, beq_false_of_ne (Ne.symm h)]
      rw [hpv] at hc
      rcases eq_or_ne ip v with h | h
      · subst h
        simp only [beq_self_eq_true, if_true] at hc
        omega
      · rw [beq_false_of_ne h] at hc
        simp only [Bool.false_eq_true, if_false] at hc
        omega
    · -- matched within c: the pass consumes the same TPG as before
      have htc : t ∈ c := List.mem_of_find?_eq_some hfind
      have hfind2 : (c ++ nr).find? (portalHit ip) = some t := by
        rw [List.find?_append, hfind]
        rfl
      have hstep : tpgStep (r, c ++ nr) ip = (r.erase ip, c.erase t ++ nr) := by
        simp only [tpgStep, hfind2]
        rw [List.erase_append_left nr htc]
      rw [List.foldl_cons, hstep, eraseAll_cons]
      refine ih (c.erase t) nr (r.erase ip) hsingle ?_
      intro v
      have h := hcount v
      simpa only [unmatchedIps, hfind] using h

/-- Fields of the world that a (successful or failed) `create_tpg` call
never modifies. -/
theorem create_tpg_frame (ok : Bool) (w : World) (ip : String) :
    (create_tpg ok w ip).gw.gateway_ip_list = w.gw.gateway_ip_list ∧
    (create_tpg ok w ip).gw.enable_portal = w.gw.enable_portal ∧
    (create_tpg ok w ip).gw.active_portal_ip = w.gw.active_portal_ip ∧
    (create_tpg ok w ip).gw.iqn = w.gw.iqn ∧
    (create_tpg ok w ip).gw.target = w.gw.target ∧
    (create_tpg ok w ip).cfg = w.cfg ∧
    (create_tpg ok w ip).kernel.target_exists = w.kernel.target_exists ∧
    (create_tpg ok w ip).kernel.storage_objects = w.kernel.storage_objects ∧
    (create_tpg ok w ip).kernel.alua = w.kernel.alua := by
  cases ok <;> simp [create_tpg]

/-- Frame lemma for a whole `create_tpg` loop. -/
theorem create_tpg_fold_frame (ok : String → Bool) (l : List String) :
    ∀ (w : World),
      (l.foldl (fun acc ip => create_tpg (ok ip) acc ip) w).gw.gateway_ip_list
          = w.gw.gateway_ip_list ∧
      (l.foldl (fun acc ip => create_tpg (ok ip) acc ip) w).gw.enable_portal
          = w.gw.enable_portal ∧
      (l.foldl (fun acc ip => create_tpg (ok ip) acc ip) w).gw.active_portal_ip
          = w.gw.active_portal_ip ∧
      (l.foldl (fun acc ip => create_tpg (ok ip) acc ip) w).gw.iqn = w.gw.iqn ∧
      (l.foldl (fun acc ip => create_tpg (ok ip) acc ip) w).gw.target = w.gw.target ∧
      (l.foldl (fun acc ip => create_tpg (ok ip) acc ip) w).cfg = w.cfg ∧
      (l.foldl (fun acc ip => create_tpg (ok ip) acc ip) w).kernel.target_exists
          = w.kernel.target_exists ∧
      (l.foldl (fun acc ip => create_tpg (ok ip) acc ip) w).kernel.storage_objects
          = w.kernel.storage_objects ∧
      (l.foldl (fun acc ip => create_tpg (ok ip) acc ip) w).kernel.alua
          = w.kernel.alua := by
  induction l with
  | nil => intro w; exact ⟨rfl, rfl, rfl, rfl, rfl, rfl, rfl, rfl, rfl⟩
  | cons ip rest ih =>
    intro w
    rw [List.foldl_cons]
    have h1 := create_tpg_frame (ok ip) w ip
    have h2 := ih (create_tpg (ok ip) w ip)
    exact ⟨h2.1.trans h1.1, h2.2.1.trans h1.2.1, h2.2.2.1.trans h1.2.2.1,
      h2.2.2.2.1.trans h1.2.2.2.1, h2.2.2.2.2.1.trans h1.2.2.2.2.1,
      h2.2.2.2.2.2.1.trans h1.2.2.2.2.2.1,
      h2.2.2.2.2.2.2.1.trans h1.2.2.2.2.2.2.1,
      h2.2.2.2.2.2.2.2.1.trans h1.2.2.2.2.2.2.2.1,
      h2.2.2.2.2.2.2.2.2.trans h1.2.2.2.2.2.2.2.2⟩

/-- A fully successful `create_tpg` loop with portal creation enabled
appends exactly one TPG per requested IP, exposing exactly that IP. -/
theorem create_tpg_fold_tpg_list (ok : String → Bool) (l : List String) :
    ∀ (w : World), w.gw.enable_portal = true → (∀ ip ∈ l, ok ip = true) →
      ∃ created : List TPG,
        (l.foldl (fun acc ip => create_tpg (ok ip) acc ip) w).gw.tpg_list
            = w.gw.tpg_list ++ created ∧
        created.map get_portals = l.map (fun ip => [ip]) ∧
        (l.foldl (fun acc ip => create_tpg (ok ip) acc ip) w).gw.error
            = w.gw.error := by
  induction l with
  | nil => intro w _ _; exact ⟨[], by simp, by simp, rfl⟩
  | cons ip rest ih =>
    intro w hep hok
    rw [List.foldl_cons]
    have hokip : ok ip = true := hok ip (List.mem_cons_self ip rest)
    have hframe := create_tpg_frame (ok ip) w ip
    have hep' : (create_tpg (ok ip) w ip).gw.enable_portal = true :=
      hframe.2.1.trans hep
    obtain ⟨created, hlist, hmap, herr⟩ :=
      ih (create_tpg (ok ip) w ip) hep' (fun x hx => hok x (List.mem_cons_of_mem ip hx))
    have hnew : ∃ tpgNew : TPG,
        (create_tpg (ok ip) w ip).gw.tpg_list = w.gw.tpg_list ++ [tpgNew] ∧
        get_portals tpgNew = [ip] ∧
        (create_tpg (ok ip) w ip).gw.error = w.gw.error := by
      rw [hokip]
      by_cases hact : ip = w.gw.active_portal_ip
      · subst hact
        refine ⟨{ tag := next_tpg_tag w.gw.tpg_list,
                  portals := if w.gw.enable_portal then [w.gw.active_portal_ip] else [],
                  enabled := true, sendtargetsOff := false, luns := [] }, ?_, ?_, ?_⟩
        · simp [create_tpg]
        · simp [get_portals, hep]
        · simp [create_tpg]
      · refine ⟨{ tag := next_tpg_tag w.gw.tpg_list, portals := [ip],
                  enabled := false, sendtargetsOff := true, luns := [] }, ?_, ?_, ?_⟩
        · simp [create_tpg, hact]
        · simp [get_portals]
        · simp [create_tpg, hact]
    obtain ⟨tpgNew, hnew1, hnew2, hnew3⟩ := hnew
    refine ⟨tpgNew :: created, ?_, ?_, herr.trans hnew3⟩
    · rw [hlist, hnew1, List.append_assoc]
      rfl
    · rw [List.map_cons, List.map_cons, hmap, hnew2]

/-- Turn the per-IP portal map of the created TPGs into the counting form
needed by `run2_all_match`. -/
theorem created_countP (created : List TPG) (l : List String)
    (h : created.map get_portals = l.map (fun ip => [ip])) :
    ∀ v, created.countP (portalHit v) = l.count v := by
  induction created generalizing l with
  | nil =>
    cases l with
    | nil => intro v; simp
    | cons x xs => intro v; simp at h
  | cons t cs ih =>
    cases l with
    | nil => simp at h
    | cons x xs =>
      simp only [List.map_cons, List.cons.injEq] at h
      intro v
      rw [List.countP_cons, List.count_cons, ih xs h.2 v]
      have hpv : portalHit v t = (x == v) := by
        simp only [portalHit, get_portals] at *
        rw [h.1]
        simp only [List.contains_cons, List.contains_nil, Bool.or_false]
        rcases eq_or_ne x v with hxv | hxv
        · subst hxv; simp
        · rw [beq_false_of_ne hxv, beq_false_of_ne (Ne.symm hxv)]
      rw [hpv]

/-- C1 (amended): with portal creation enabled (`enable_portal=True`),
portal-group reconciliation is idempotent — for every target state, after
a successful `check_tpgs` run the missing-IP diff of an immediate second
run over the unchanged portal-IP list is empty, and the second run is the
identity (creates zero additional TPGs). -/
theorem C1_reconcile_idempotent (w : World) (hep : w.gw.enable_portal = true) :
    missing_tpg_ips (check_tpgs (fun _ => true) w).gw.gateway_ip_list
        (check_tpgs (fun _ => true) w).gw.tpg_list = [] ∧
    check_tpgs (fun _ => true) (check_tpgs (fun _ => true) w)
      = check_tpgs (fun _ => true) w := by
  have hmain : missing_tpg_ips (check_tpgs (fun _ => true) w).gw.gateway_ip_list
      (check_tpgs (fun _ => true) w).gw.tpg_list = [] := by
    obtain ⟨created, hlist, hmap, herr⟩ :=
      create_tpg_fold_tpg_list (fun _ => true)
        (missing_tpg_ips w.gw.gateway_ip_list w.gw.tpg_list) w hep (fun _ _ => rfl)
    have hframe := create_tpg_fold_frame (fun _ => true)
        (missing_tpg_ips w.gw.gateway_ip_list w.gw.tpg_list) w
    have hck : check_tpgs (fun _ => true) w
        = (missing_tpg_ips w.gw.gateway_ip_list w.gw.tpg_list).foldl
            (fun acc ip => create_tpg ((fun _ => true) ip) acc ip) w := rfl
    rw [hck, hframe.1, hlist]
    have hcnt : ∀ v, (unmatchedIps w.gw.gateway_ip_list w.gw.tpg_list).count v
        ≤ created.countP (portalHit v) := by
      intro v
      rw [created_countP created _ hmap v, count_missing_tpg_ips]
    have hsingle : ∀ t ∈ created, ∃ v, get_portals t = [v] := by
      intro t ht
      have hmem : get_portals t ∈ created.map get_portals :=
        List.mem_map_of_mem _ ht
      rw [hmap] at hmem
      obtain ⟨ip, _, hip⟩ := List.mem_map.mp hmem
      exact ⟨ip, hip.symm⟩
    rw [missing_tpg_ips,
      run2_all_match _ _ _ _ hsingle hcnt, eraseAll_self]
  refine ⟨hmain, ?_⟩
  have hck2 : check_tpgs (fun _ => true) (check_tpgs (fun _ => true) w)
      = (missing_tpg_ips (check_tpgs (fun _ => true) w).gw.gateway_ip_list
          (check_tpgs (fun _ => true) w).gw.tpg_list).foldl
          (fun acc ip => create_tpg ((fun _ => true) ip) acc ip)
          (check_tpgs (fun _ => true) w) := rfl
  rw [hck2, hmain]
  rfl

/-- C1 counterexample: with `enable_portal=False` the claim fails as
stated — the first `check_tpgs` run succeeds (no error) but creates the
active-IP TPG without a network portal, so the second run's missing-IP
diff is not empty and a second TPG is created for the same IP. -/
theorem C1_counterexample :
    (check_tpgs (fun _ => true) wCE1).gw.error = false ∧
    missing_tpg_ips (check_tpgs (fun _ => true) wCE1).gw.gateway_ip_list
        (check_tpgs (fun _ => true) wCE1).gw.tpg_list = ["10.0.0.1"] ∧
    (check_tpgs (fun _ => true) (check_tpgs (fun _ => true) wCE1)).gw.tpg_list.length
      = 2 := by
  decide

/-- Witness for C1 at a concrete two-portal world. -/
theorem C1_reconcile_idempotent_witness :
    missing_tpg_ips (check_tpgs (fun _ => true) wW1).gw.gateway_ip_list
        (check_tpgs (fun _ => true) wW1).gw.tpg_list = [] ∧
    check_tpgs (fun _ => true) (check_tpgs (fun _ => true) wW1)
      = check_tpgs (fun _ => true) wW1 :=
  C1_reconcile_idempotent wW1 rfl

/-- C8: TPG ordering stability.  Reconciling a fresh target with portal
list `[ip1, ip2, ip3]` creates TPGs with tags 1, 2, 3 in list order;
reconciling again with `[ip1, ip2, ip3, ip4]` leaves those three TPGs —
including their tags — untouched and appends exactly one new TPG for
`ip4` after them. -/
theorem C8_tpg_ordering (ip1 ip2 ip3 ip4 : String)
    (h21 : ip2 ≠ ip1) (h31 : ip3 ≠ ip1) (h41 : ip4 ≠ ip1) :
    (check_tpgs (fun _ => true) (w8 ip1 ip2 ip3)).gw.tpg_list
        = [⟨1, [ip1], true, false, []⟩, ⟨2, [ip2], false, true, []⟩,
           ⟨3, [ip3], false, true, []⟩] ∧
    (check_tpgs (fun _ => true)
        { check_tpgs (fun _ => true) (w8 ip1 ip2 ip3) with
          gw := { (check_tpgs (fun _ => true) (w8 ip1 ip2 ip3)).gw with
                  gateway_ip_list := [ip1, ip2, ip3, ip4] } }).gw.tpg_list
        = [⟨1, [ip1], true, false, []⟩, ⟨2, [ip2], false, true, []⟩,
           ⟨3, [ip3], false, true, []⟩, ⟨4, [ip4], false, true, []⟩] := by
  constructor
  · simp [check_tpgs, missing_tpg_ips, tpgStep, create_tpg, next_tpg_tag, w8,
      h21, h31]
  · simp [check_tpgs, missing_tpg_ips, tpgStep, create_tpg, next_tpg_tag, w8,
      portalHit, get_portals, h21, h31, h41]

/-- Witness for C8 at four concrete distinct portal IPs. -/
theorem C8_tpg_ordering_witness :
    (check_tpgs (fun _ => true) (w8 "10.0.0.1" "10.0.0.2" "10.0.0.3")).gw.tpg_list
        = [⟨1, ["10.0.0.1"], true, false, []⟩, ⟨2, ["10.0.0.2"], false, true, []⟩,
           ⟨3, ["10.0.0.3"], false, true, []⟩] ∧
    (check_tpgs (fun _ => true)
        { check_tpgs (fun _ => true) (w8 "10.0.0.1" "10.0.0.2" "10.0.0.3") with
          gw := { (check_tpgs (fun _ => true)
                    (w8 "10.0.0.1" "10.0.0.2" "10.0.0.3")).gw with
                  gateway_ip_list :=
                    ["10.0.0.1", "10.0.0.2", "10.0.0.3", "10.0.0.4"] } }).gw.tpg_list
        = [⟨1, ["10.0.0.1"], true, false, []⟩, ⟨2, ["10.0.0.2"], false, true, []⟩,
           ⟨3, ["10.0.0.3"], false, true, []⟩,
           ⟨4, ["10.0.0.4"], false, true, []⟩] :=
  C8_tpg_ordering "10.0.0.1" "10.0.0.2" "10.0.0.3" "10.0.0.4"
    (by decide) (by decide) (by decide)

/-- Effect of one successful `create_tpg` on the TPG list (with portal
creation enabled the new TPG exposes exactly the requested IP). -/
theorem create_tpg_true_effect (w : World) (ip : String)
    (hep : w.gw.enable_portal = true) :
    ∃ tpgNew : TPG,
      (create_tpg true w ip).gw.tpg_list = w.gw.tpg_list ++ [tpgNew] ∧
      get_portals tpgNew = [ip] ∧
      (create_tpg true w ip).gw.error = w.gw.error := by
  by_cases hact : ip = w.gw.active_portal_ip
  · subst hact
    refine ⟨{ tag := next_tpg_tag w.gw.tpg_list,
              portals := if w.gw.enable_portal then [w.gw.active_portal_ip] else [],
              enabled := true, sendtargetsOff := false, luns := [] }, ?_, ?_, ?_⟩
    · simp [create_tpg]
    · simp [get_portals, hep]
    · simp [create_tpg]
  · refine ⟨{ tag := next_tpg_tag w.gw.tpg_list, portals := [ip],
              enabled := false, sendtargetsOff := true, luns := [] }, ?_, ?_, ?_⟩
    · simp [create_tpg, hact]
    · simp [get_portals]
    · simp [create_tpg, hact]

/-- A `create_tpg` loop with arbitrary per-IP kernel outcomes: the error
flag records whether any creation failed, and exactly the successful IPs
gain a TPG (in order) — failures do not stop the loop. -/
theorem create_tpg_fold_failures (ok : String → Bool) (l : List String) :
    ∀ (w : World), w.gw.enable_portal = true →
      (l.foldl (fun acc ip => create_tpg (ok ip) acc ip) w).gw.error
          = (w.gw.error || l.any (fun ip => !(ok ip))) ∧
      (l.foldl (fun acc ip => create_tpg (ok ip) acc ip) w).gw.tpg_list.map get_portals
          = w.gw.tpg_list.map get_portals
              ++ (l.filter (fun ip => ok ip)).map (fun ip => [ip]) := by
  induction l with
  | nil => intro w _; simp
  | cons ip rest ih =>
    intro w hep
    rw [List.foldl_cons]
    rcases hok : ok ip with _ | _
    · have hfail : create_tpg false w ip
          = { w with gw := { w.gw with error := true, error_msg := "RTSLibError" } } := rfl
      rw [hfail]
      obtain ⟨ihe, ihl⟩ :=
        ih { w with gw := { w.gw with error := true, error_msg := "RTSLibError" } } hep
      refine ⟨?_, ?_⟩
      · rw [ihe]; simp [hok]
      · rw [ihl]; simp [hok]
    · obtain ⟨tpgNew, hlist, hport, herrn⟩ := create_tpg_true_effect w ip hep
      have hep' : (create_tpg true w ip).gw.enable_portal = true :=
        (create_tpg_frame true w ip).2.1.trans hep
      obtain ⟨ihe, ihl⟩ := ih (create_tpg true w ip) hep'
      refine ⟨?_, ?_⟩
      · rw [ihe, herrn]; simp [hok]
      · rw [ihl, hlist]
        simp only [List.map_append, List.map_cons, List.map_nil, hport,
          List.append_assoc]
        simp [hok]

/-- C5 (amended): in `create_target()` with a successful kernel target
creation, every portal IP's TPG creation is attempted even after an
earlier per-TPG failure (exactly the successful IPs gain a TPG, in order);
if every TPG creation succeeded the target exists with no error, and if
any TPG creation failed the whole target is deleted before `create_target`
returns, leaving no target in the kernel subsystem. -/
theorem C5_create_target_rollback (w : World) (tpgOk : String → Bool)
    (hep : w.gw.enable_portal = true) (herr : w.gw.error = false) :
    ∃ w', create_target true tpgOk w = .ok w' ∧
      w'.gw.tpg_list.map get_portals
        = w.gw.tpg_list.map get_portals
            ++ (w.gw.gateway_ip_list.filter (fun ip => tpgOk ip)).map (fun ip => [ip]) ∧
      (w.gw.gateway_ip_list.any (fun ip => !(tpgOk ip)) = false →
        w'.gw.error = false ∧ w'.kernel.target_exists = true) ∧
      (w.gw.gateway_ip_list.any (fun ip => !(tpgOk ip)) = true →
        w'.gw.error = true ∧ w'.kernel.target_exists = false) := by
  set w1 : World :=
    { w with gw := { w.gw with target := some w.gw.iqn }
             kernel := { w.kernel with target_exists := true } } with hw1
  have hep1 : w1.gw.enable_portal = true := hep
  obtain ⟨he2, hl2⟩ := create_tpg_fold_failures tpgOk w.gw.gateway_ip_list w1 hep1
  have hframe := create_tpg_fold_frame tpgOk w.gw.gateway_ip_list w1
  set w2 : World :=
    w.gw.gateway_ip_list.foldl (fun acc ip => create_tpg (tpgOk ip) acc ip) w1 with hw2
  have herr1 : w1.gw.error = false := herr
  have herr2 : w2.gw.error = w.gw.gateway_ip_list.any (fun ip => !(tpgOk ip)) := by
    rw [he2, herr1, Bool.false_or]
  have htgt2 : w2.gw.target = some w.gw.iqn := hframe.2.2.2.2.1.trans rfl
  have hte2 : w2.kernel.target_exists = true := hframe.2.2.2.2.2.2.1.trans rfl
  have hlist2 : w2.gw.tpg_list.map get_portals
      = w.gw.tpg_list.map get_portals
          ++ (w.gw.gateway_ip_list.filter (fun ip => tpgOk ip)).map (fun ip => [ip]) := by
    have hw1t : w1.gw.tpg_list = w.gw.tpg_list := rfl
    rw [hl2, hw1t]
  have hct : create_target true tpgOk w
      = if w2.gw.error = true then gwDelete w2
        else .ok { w2 with gw := { w2.gw with changes_made := true } } := rfl
  rcases Bool.eq_false_or_eq_true (w.gw.gateway_ip_list.any (fun ip => !(tpgOk ip)))
    with hany | hany
  · refine ⟨{ w2 with kernel := { w2.kernel with target_exists := false, tpgs := [] } },
      ?_, ?_, ?_, ?_⟩
    · rw [hct, if_pos (show w2.gw.error = true by rw [herr2, hany])]
      unfold gwDelete
      rw [htgt2]
    · show w2.gw.tpg_list.map get_portals = _
      exact hlist2
    · intro hcontra
      rw [hany] at hcontra
      simp at hcontra
    · intro _
      refine ⟨?_, rfl⟩
      show w2.gw.error = true
      rw [herr2, hany]
  · refine ⟨{ w2 with gw := { w2.gw with changes_made := true } }, ?_, ?_, ?_, ?_⟩
    · rw [hct, if_neg (show ¬(w2.gw.error = true) by
        rw [herr2, hany]; exact Bool.false_ne_true)]
    · show w2.gw.tpg_list.map get_portals = _
      exact hlist2
    · intro _
      refine ⟨?_, hte2⟩
      show w2.gw.error = false
      rw [herr2, hany]
    · intro hcontra
      rw [hany] at hcontra
      exact (Bool.false_ne_true hcontra).elim

/-- C5 counterexample: when the kernel target creation itself fails,
`create_target` does not delete-and-return — `self.target` is still
`None`, so the rollback's `self.target.delete()` raises `AttributeError`
out of `create_target` instead of returning. -/
theorem C5_counterexample :
    create_target false (fun _ => true) wCE5 = .error PyError.attr := rfl

/-- Witness for C5: a concrete run where the second portal's TPG creation
fails, the first is still created, and the target is rolled back. -/
theorem C5_create_target_rollback_witness :
    ∃ w', create_target true (fun ip => ip == "10.0.0.1") wW1 = .ok w' ∧
      w'.gw.tpg_list.map get_portals
        = wW1.gw.tpg_list.map get_portals
            ++ (wW1.gw.gateway_ip_list.filter
                  (fun ip => (fun ip => ip == "10.0.0.1") ip)).map (fun ip => [ip]) ∧
      (wW1.gw.gateway_ip_list.any
          (fun ip => !((fun ip => ip == "10.0.0.1") ip)) = false →
        w'.gw.error = false ∧ w'.kernel.target_exists = true) ∧
      (wW1.gw.gateway_ip_list.any
          (fun ip => !((fun ip => ip == "10.0.0.1") ip)) = true →
        w'.gw.error = true ∧ w'.kernel.target_exists = false) :=
  C5_create_target_rollback wW1 (fun ip => ip == "10.0.0.1") rfl rfl

theorem decDecode_append_digit (cs : List Char) (c : Char) :
    decDecode (cs ++ [c]) = decDecode cs * 10 + (c.toNat - 48) := by
  simp [decDecode, List.foldl_append]

theorem digitChar_toNat (d : Nat) (hd : d < 10) :
    (Nat.digitChar d).toNat - 48 = d := by
  interval_cases d <;> decide

theorem decDecode_natDigitsAux (fuel : Nat) :
    ∀ n, n < fuel → decDecode (natDigitsAux fuel n) = n := by
  induction fuel with
  | zero => intro n hn; omega
  | succ fuel ih =>
    intro n hn
    by_cases h0 : n = 0
    · subst h0
      simp [natDigitsAux, decDecode]
    · have hdiv : n / 10 < fuel := by
        have h1 : n / 10 < n := Nat.div_lt_self (Nat.pos_of_ne_zero h0) (by omega)
        omega
      rw [natDigitsAux, if_neg h0, decDecode_append_digit, ih (n / 10) hdiv,
        digitChar_toNat (n % 10) (Nat.mod_lt n (by omega))]
      omega

theorem decDecode_natDecimal (n : Nat) : decDecode (natDecimal n).data = n := by
  by_cases h0 : n = 0
  · subst h0; decide
  · rw [natDecimal, if_neg h0]
    exact decDecode_natDigitsAux (n + 1) n (by omega)

theorem natDecimal_inj (m n : Nat) (h : natDecimal m = natDecimal n) : m = n := by
  have := congrArg (fun s => decDecode s.data) h
  simpa [decDecode_natDecimal] using this

theorem anoName_inj (m n : Nat) (h : "ano" ++ natDecimal m = "ano" ++ natDecimal n) :
    m = n := by
  apply natDecimal_inj
  have hdata := congrArg String.data h
  simp only [String.data_append] at hdata
  exact String.ext (List.append_cancel_left hdata)

theorem anoName_ne_ao (n : Nat) : ("ano" ++ natDecimal n) ≠ "ao" := by
  intro h
  have hdata := congrArg String.data h
  simp only [String.data_append] at hdata
  have := congrArg List.length hdata
  simp at this

theorem pylookup_append {κ α : Type} [DecidableEq κ] (A B : List (κ × α)) (k : κ) :
    pylookup (A ++ B) k = (pylookup A k).or (pylookup B k) := by
  induction A with
  | nil => simp [pylookup]
  | cons e rest ih =>
    simp only [List.cons_append, pylookup]
    by_cases h : e.1 = k
    · rw [if_pos h, if_pos h]; rfl
    · rw [if_neg h, if_neg h]
      exact ih

theorem pylookup_map_self {α : Type} (A : List ((String × String) × α))
    (k : String × String) (g : α) :
    (pylookup A k).isSome →
      pylookup (A.map (fun e => if e.1 = k then (k, g) else e)) k = some g := by
  induction A with
  | nil => intro h; simp [pylookup] at h
  | cons e rest ih =>
    intro h
    by_cases hek : e.1 = k
    · rw [List.map_cons, if_pos hek]
      simp [pylookup]
    · rw [List.map_cons, if_neg hek]
      simp only [pylookup, if_neg hek]
      apply ih
      simp only [pylookup, if_neg hek] at h
      exact h

theorem pylookup_map_ne {α : Type} (A : List ((String × String) × α))
    (k k' : String × String) (g : α) (hne : k' ≠ k) :
    pylookup (A.map (fun e => if e.1 = k then (k, g) else e)) k'
      = pylookup A k' := by
  induction A with
  | nil => rfl
  | cons e rest ih =>
    by_cases hek' : e.1 = k'
    · have hek : ¬(e.1 = k) := fun h => hne (by rw [← hek']; exact h)
      simp only [List.map_cons, if_neg hek, pylookup, if_pos hek']
    · by_cases hek : e.1 = k
      · have hkk' : ¬(k = k') := fun h => hne h.symm
        simp only [List.map_cons, if_pos hek, pylookup, if_neg hkk', if_neg hek']
        exact ih
      · simp only [List.map_cons, if_neg hek, pylookup, if_neg hek']
        exact ih

theorem alua_set_lookup_self (A : List ((String × String) × ALUAGroup))
    (k : String × String) (g : ALUAGroup) :
    pylookup (alua_set A k g) k = some g := by
  unfold alua_set
  cases h : pylookup A k with
  | none =>
    rw [pylookup_append, h]
    simp [pylookup]
  | some g0 =>
    exact pylookup_map_self A k g (by rw [h]; rfl)

theorem alua_set_lookup_ne (A : List ((String × String) × ALUAGroup))
    (k k' : String × String) (g : ALUAGroup) (hne : k' ≠ k) :
    pylookup (alua_set A k g) k' = pylookup A k' := by
  unfold alua_set
  cases h : pylookup A k with
  | none =>
    rw [pylookup_append]
    have hk : pylookup [(k, g)] k' = none := by
      simp only [pylookup]
      rw [if_neg (fun hkk' => hne hkk'.symm)]
    rw [hk]
    exact Option.or_none
  | some g0 =>
    exact pylookup_map_ne A k k' g hne

theorem bind_alua_spec (cfg : Config) (alua : List ((String × String) × ALUAGroup))
    (lun : LUN) (tpg : TPG) (ip owner : String) (gwe : GatewayEntry)
    (hdisk : pylookup cfg.disks lun.stg.name = some owner)
    (hgw : pylookup cfg.gateways owner = some gwe) :
    (pylookup alua (lun.stg.name,
        if gwe.portal_ip_address = ip then "ao"
        else "ano" ++ natDecimal tpg.tag) = none →
      bind_alua_group_to_lun cfg alua lun tpg (some ip)
        = .ok (alua_set alua (lun.stg.name,
            if gwe.portal_ip_address = ip then "ao"
            else "ano" ++ natDecimal tpg.tag)
            { tpg_id := tpg.tag
              alua_access_state := if gwe.portal_ip_address = ip then 0 else 1
              alua_access_type := 1, alua_support_offline := 0
              alua_support_unavailable := 0, alua_support_standby := 0
              nonop_delay_msecs := 0, bound_luns := [(tpg.tag, lun.id)] })) ∧
    (∀ g, pylookup alua (lun.stg.name,
        if gwe.portal_ip_address = ip then "ao"
        else "ano" ++ natDecimal tpg.tag) = some g → g.tpg_id = tpg.tag →
      bind_alua_group_to_lun cfg alua lun tpg (some ip)
        = .ok (alua_set alua (lun.stg.name,
            if gwe.portal_ip_address = ip then "ao"
            else "ano" ++ natDecimal tpg.tag)
            { g with alua_access_type := 1, alua_support_offline := 0
                     alua_support_unavailable := 0, alua_support_standby := 0
                     nonop_delay_msecs := 0
                     bound_luns := g.bound_luns ++ [(tpg.tag, lun.id)] })) ∧
    (∀ g, pylookup alua (lun.stg.name,
        if gwe.portal_ip_address = ip then "ao"
        else "ano" ++ natDecimal tpg.tag) = some g → g.tpg_id ≠ tpg.tag →
      bind_alua_group_to_lun cfg alua lun tpg (some ip) = .error .rtslib) := by
  refine ⟨?_, ?_, ?_⟩
  · intro hnone
    simp only [bind_alua_group_to_lun, hdisk, hgw, alua_create, hnone,
      List.nil_append]
  · intro g hsome htag
    simp only [bind_alua_group_to_lun, hdisk, hgw, alua_create, alua_get, hsome]
    rw [if_neg (by rw [htag]; exact fun h => h rfl)]
  · intro g hsome htag
    simp only [bind_alua_group_to_lun, hdisk, hgw, alua_create, alua_get, hsome]
    rw [if_pos htag]

/-- C2: for every ALUA bind with a resolved TPG portal IP, a resolvable
owner, and a not-yet-existing group: when the shared record's
`gateways[owner].portal_ip_address` for the LUN's volume equals the TPG's
portal IP the volume is placed in ALUA group "ao" with access-state 0,
and otherwise in group "ano<tpg-tag>" with access-state 1, the group
recording the TPG's tag and the LUN bound into it. -/
theorem C2_alua_owner_decision (cfg : Config)
    (alua0 : List ((String × String) × ALUAGroup)) (lun : LUN) (tpg : TPG)
    (ip owner : String) (gwe : GatewayEntry)
    (hdisk : pylookup cfg.disks lun.stg.name = some owner)
    (hgw : pylookup cfg.gateways owner = some gwe)
    (hao : pylookup alua0 (lun.stg.name, "ao") = none)
    (hano : pylookup alua0 (lun.stg.name, "ano" ++ natDecimal tpg.tag) = none) :
    ∃ alua1, bind_alua_group_to_lun cfg alua0 lun tpg (some ip) = .ok alua1 ∧
      (gwe.portal_ip_address = ip →
        ∃ g, pylookup alua1 (lun.stg.name, "ao") = some g ∧
          g.alua_access_state = 0 ∧ g.tpg_id = tpg.tag ∧
          (tpg.tag, lun.id) ∈ g.bound_luns) ∧
      (gwe.portal_ip_address ≠ ip →
        ∃ g, pylookup alua1 (lun.stg.name, "ano" ++ natDecimal tpg.tag) = some g ∧
          g.alua_access_state = 1 ∧ g.tpg_id = tpg.tag ∧
          (tpg.tag, lun.id) ∈ g.bound_luns) := by
  obtain ⟨spec1, _, _⟩ := bind_alua_spec cfg alua0 lun tpg ip owner gwe hdisk hgw
  by_cases hmatch : gwe.portal_ip_address = ip
  · rw [if_pos hmatch] at spec1
    refine ⟨_, spec1 hao, fun _ => ?_, fun hne => absurd hmatch hne⟩
    refine ⟨_, alua_set_lookup_self _ _ _, ?_, rfl, ?_⟩
    · simp [hmatch]
    · simp
  · rw [if_neg hmatch] at spec1
    refine ⟨_, spec1 hano, fun hm => absurd hm hmatch, fun _ => ?_⟩
    refine ⟨_, alua_set_lookup_self _ _ _, ?_, rfl, ?_⟩
    · simp [hmatch]
    · simp

/-- C3: calling the ALUA binder twice for the same (volume, TPG) with no
topology change succeeds both times — the second call re-attaches to the
pre-existing group by name and leaves the group's recorded TPG tag
unchanged — and whenever the pre-existing group's recorded TPG tag
differs from the current TPG's tag, the bind fails with the topology-
mismatch `RTSLibError` raise. -/
theorem C3_alua_rebind (cfg : Config)
    (alua0 : List ((String × String) × ALUAGroup)) (lun : LUN) (tpg : TPG)
    (ip owner : String) (gwe : GatewayEntry)
    (hdisk : pylookup cfg.disks lun.stg.name = some owner)
    (hgw : pylookup cfg.gateways owner = some gwe)
    (hfresh : pylookup alua0 (lun.stg.name,
        if gwe.portal_ip_address = ip then "ao"
        else "ano" ++ natDecimal tpg.tag) = none) :
    (∃ alua1 alua2 g1 g2,
      bind_alua_group_to_lun cfg alua0 lun tpg (some ip) = .ok alua1 ∧
      bind_alua_group_to_lun cfg alua1 lun tpg (some ip) = .ok alua2 ∧
      pylookup alua1 (lun.stg.name,
        if gwe.portal_ip_address = ip then "ao"
        else "ano" ++ natDecimal tpg.tag) = some g1 ∧
      pylookup alua2 (lun.stg.name,
        if gwe.portal_ip_address = ip then "ao"
        else "ano" ++ natDecimal tpg.tag) = some g2 ∧
      g1.tpg_id = tpg.tag ∧ g2.tpg_id = tpg.tag) ∧
    (∀ (aluaX : List ((String × String) × ALUAGroup)) (g : ALUAGroup),
      pylookup aluaX (lun.stg.name,
        if gwe.portal_ip_address = ip then "ao"
        else "ano" ++ natDecimal tpg.tag) = some g →
      g.tpg_id ≠ tpg.tag →
      bind_alua_group_to_lun cfg aluaX lun tpg (some ip) = .error .rtslib) := by
  constructor
  · have h1 := (bind_alua_spec cfg alua0 lun tpg ip owner gwe hdisk hgw).1 hfresh
    have h2 := (bind_alua_spec cfg
        (alua_set alua0 (lun.stg.name,
          if gwe.portal_ip_address = ip then "ao"
          else "ano" ++ natDecimal tpg.tag)
          { tpg_id := tpg.tag
            alua_access_state := if gwe.portal_ip_address = ip then 0 else 1
            alua_access_type := 1, alua_support_offline := 0
            alua_support_unavailable := 0, alua_support_standby := 0
            nonop_delay_msecs := 0, bound_luns := [(tpg.tag, lun.id)] })
        lun tpg ip owner gwe hdisk hgw).2.1
        { tpg_id := tpg.tag
          alua_access_state := if gwe.portal_ip_address = ip then 0 else 1
          alua_access_type := 1, alua_support_offline := 0
          alua_support_unavailable := 0, alua_support_standby := 0
          nonop_delay_msecs := 0, bound_luns := [(tpg.tag, lun.id)] }
        (alua_set_lookup_self _ _ _) rfl
    exact ⟨_, _, _, _, h1, h2, alua_set_lookup_self _ _ _,
      alua_set_lookup_self _ _ _, rfl, rfl⟩
  · intro aluaX g hsome htag
    exact (bind_alua_spec cfg aluaX lun tpg ip owner gwe hdisk hgw).2.2 g hsome htag

/-- Witness for C2 at a concrete owner-matching bind. -/
theorem C2_alua_owner_decision_witness :
    ∃ alua1, bind_alua_group_to_lun cfgW [] lunW tpgW (some "10.0.0.1") = .ok alua1 ∧
      (gweW.portal_ip_address = "10.0.0.1" →
        ∃ g, pylookup alua1 (lunW.stg.name, "ao") = some g ∧
          g.alua_access_state = 0 ∧ g.tpg_id = tpgW.tag ∧
          (tpgW.tag, lunW.id) ∈ g.bound_luns) ∧
      (gweW.portal_ip_address ≠ "10.0.0.1" →
        ∃ g, pylookup alua1 (lunW.stg.name, "ano" ++ natDecimal tpgW.tag) = some g ∧
          g.alua_access_state = 1 ∧ g.tpg_id = tpgW.tag ∧
          (tpgW.tag, lunW.id) ∈ g.bound_luns) :=
  C2_alua_owner_decision cfgW [] lunW tpgW "10.0.0.1" "gw1" gweW rfl rfl rfl rfl

/-- Witness for C3 at a concrete double bind. -/
theorem C3_alua_rebind_witness :
    (∃ alua1 alua2 g1 g2,
      bind_alua_group_to_lun cfgW [] lunW tpgW (some "10.0.0.2") = .ok alua1 ∧
      bind_alua_group_to_lun cfgW alua1 lunW tpgW (some "10.0.0.2") = .ok alua2 ∧
      pylookup alua1 (lunW.stg.name,
        if gweW.portal_ip_address = "10.0.0.2" then "ao"
        else "ano" ++ natDecimal tpgW.tag) = some g1 ∧
      pylookup alua2 (lunW.stg.name,
        if gweW.portal_ip_address = "10.0.0.2" then "ao"
        else "ano" ++ natDecimal tpgW.tag) = some g2 ∧
      g1.tpg_id = tpgW.tag ∧ g2.tpg_id = tpgW.tag) ∧
    (∀ (aluaX : List ((String × String) × ALUAGroup)) (g : ALUAGroup),
      pylookup aluaX (lunW.stg.name,
        if gweW.portal_ip_address = "10.0.0.2" then "ao"
        else "ano" ++ natDecimal tpgW.tag) = some g →
      g.tpg_id ≠ tpgW.tag →
      bind_alua_group_to_lun cfgW aluaX lunW tpgW (some "10.0.0.2") = .error .rtslib) :=
  C3_alua_rebind cfgW [] lunW tpgW "10.0.0.2" "gw1" gweW rfl rfl (by decide)

theorem map_stg_go_lun_ids (lunOk : String → Nat → Bool) (cfg : Config)
    (stg : StorageObject) :
    ∀ (idxs : List Nat) (w w' : World),
      map_stg_go lunOk cfg stg idxs w = .ok w' →
      lunIdsOK w → lunIdsOK w' := by
  intro idxs
  induction idxs with
  | nil =>
    intro w w' h hw
    cases h
    exact hw
  | cons i rest ih =>
    intro w w' h hw
    rw [map_stg_go] at h
    rcases hget : w.gw.tpg_list[i]? with _ | tpg
    · simp only [hget] at h
      cases h
      exact hw
    · simp only [hget] at h
      by_cases hmapped : lun_mapped tpg stg
      · rw [if_pos hmapped] at h
        exact ih w w' h hw
      · rw [if_neg hmapped] at h
        rcases hparse : lun_id_of_path stg.path with _ | lid
        · simp only [hparse] at h
          cases h
        · simp only [hparse] at h
          by_cases hok : lunOk stg.name tpg.tag
          · rw [if_pos hok] at h
            rcases hbind : bind_alua_group_to_lun cfg w.kernel.alua
                { id := lid, stg := stg }
                { tpg with luns := tpg.luns ++ [{ id := lid, stg := stg }] } none
              with e | alua2
            · simp only [hbind] at h
              cases h
            · simp only [hbind] at h
              refine ih _ w' h ?_
              intro t ht l hl
              rcases List.mem_or_eq_of_mem_set ht with hmem | heq
              · exact hw t hmem l hl
              · subst heq
                rcases List.mem_append.mp hl with hold | hnew
                · exact hw tpg (List.getElem?_mem hget) l hold
                · rw [List.mem_singleton.mp hnew]
                  exact hparse
          · rw [if_neg hok] at h
            cases h
            intro t ht l hl
            exact hw t ht l hl

theorem C9_lun_numbering_go (lunOk : String → Nat → Bool) (cfg : Config) :
    ∀ (ss : List StorageObject) (w w' : World),
      map_luns_go lunOk cfg ss w = .ok w' → lunIdsOK w → lunIdsOK w' := by
  intro ss
  induction ss with
  | nil =>
    intro w w' h hw
    cases h
    exact hw
  | cons stg rest ih =>
    intro w w' h hw
    rw [map_luns_go] at h
    rcases hstep : map_stg_go lunOk cfg stg (List.range w.gw.tpg_list.length) w
      with e | w2
    · simp only [hstep] at h
      cases h
    · simp only [hstep] at h
      exact ih w2 w' h (map_stg_go_lun_ids lunOk cfg stg _ w w2 hstep hw)

/-- C9: every LUN binding `map_luns` creates uses the LUN number derived
from the volume's kernel backing-store slot (parsed from its kernel
path), never the iteration order — so any state reachable by `map_luns`
from a state satisfying this invariant still satisfies it, and two
reconciliation runs over unchanged kernel storage objects assign the same
LUN identifier to the same volume. -/
theorem C9_lun_numbering (lunOk : String → Nat → Bool) (cfg : Config)
    (w w' : World) (h : map_luns lunOk cfg w = .ok w') (hbase : lunIdsOK w) :
    lunIdsOK w' :=
  C9_lun_numbering_go lunOk cfg w.kernel.storage_objects w w' h hbase

theorem except_ok_of_toOption {e : Except PyError World} {x : World}
    (h : e.toOption = some x) : e = .ok x := by
  cases e with
  | error err => simp [Except.toOption] at h
  | ok a => simp [Except.toOption] at h; rw [h]

theorem C9_lun_numbering_witness :
    lun_id_of_path stgW.path = some 0 :=
  C9_lun_numbering (fun _ _ => true) cfgW wW9 w9out
    (except_ok_of_toOption (by decide))
    (by unfold lunIdsOK; decide) tpg9out (by decide) lun9out (by decide)

/-- A run of the per-volume TPG loop skips (leaving the state unchanged)
every index whose TPG already maps the storage object. -/
theorem map_stg_go_skip_all (lunOk : String → Nat → Bool) (cfg : Config)
    (stg : StorageObject) :
    ∀ (A B : List Nat) (w : World),
      (∀ i ∈ A, ∃ t, w.gw.tpg_list[i]? = some t ∧ lun_mapped t stg = true) →
      map_stg_go lunOk cfg stg (A ++ B) w = map_stg_go lunOk cfg stg B w := by
  intro A
  induction A with
  | nil => intro B w _; rfl
  | cons i A' ih =>
    intro B w hA
    obtain ⟨t, hget, hmap⟩ := hA i (List.mem_cons_self i A')
    rw [List.cons_append, map_stg_go]
    simp only [hget]
    rw [if_pos hmap]
    exact ih B w (fun i' hi' => hA i' (List.mem_cons_of_mem i hi'))

/-- The per-volume TPG loop never reads the gateway's error flag: a run
from a state with the error flag (and message) forced behaves exactly as
the run from the original state, with the same forcing applied to the
result. -/
theorem map_stg_go_error_override (lunOk : String → Nat → Bool) (cfg : Config)
    (stg2 : StorageObject) :
    ∀ (idxs : List Nat) (w2 w2' : World),
      map_stg_go lunOk cfg stg2 idxs w2 = .ok w2' →
      map_stg_go lunOk cfg stg2 idxs
          { w2 with gw := { w2.gw with error := true, error_msg := "RTSLibError" } }
        = .ok { w2' with gw := { w2'.gw with
                                   error := true
                                   error_msg := "RTSLibError" } } := by
  intro idxs
  induction idxs with
  | nil =>
    intro w2 w2' h
    cases h
    rfl
  | cons i rest ih =>
    intro w2 w2' h
    rw [map_stg_go] at h
    rw [map_stg_go]
    rcases hget : w2.gw.tpg_list[i]? with _ | tpg
    · simp only [hget] at h ⊢
      cases h
      rfl
    · simp only [hget] at h ⊢
      by_cases hmap : lun_mapped tpg stg2
      · rw [if_pos hmap] at h ⊢
        exact ih w2 w2' h
      · rw [if_neg hmap] at h ⊢
        rcases hparse : lun_id_of_path stg2.path with _ | lid
        · simp only [hparse] at h
          cases h
        · simp only [hparse] at h ⊢
          by_cases hok : lunOk stg2.name tpg.tag
          · rw [if_pos hok] at h ⊢
            rcases hbind : bind_alua_group_to_lun cfg w2.kernel.alua
                { id := lid, stg := stg2 }
                { tpg with luns := tpg.luns ++ [{ id := lid, stg := stg2 }] } none
              with e | alua2
            · simp only [hbind] at h
              cases h
            · simp only [hbind] at h ⊢
              exact ih _ w2' h
          · rw [if_neg hok] at h ⊢
            cases h
            rfl

/-- C7 (amended): in `map_luns`, when the LUN creation for some
(volume, TPG) pair fails, the error is recorded on the gateway and the
remaining TPGs for that volume are skipped (the `break` exits only the
inner per-TPG loop, leaving the state otherwise untouched), while mapping
is still attempted for the remaining volumes of the storage-object list
(the outer loop continues on the errored state, and the error flag does
not influence later volumes' processing). -/
theorem C7_map_luns_failure (lunOk : String → Nat → Bool) (cfg : Config)
    (stg : StorageObject) (w : World) (j : Nat) (tpg_j : TPG)
    (hj : w.gw.tpg_list[j]? = some tpg_j)
    (hpre : ∀ i, i < j → ∃ t, w.gw.tpg_list[i]? = some t ∧ lun_mapped t stg = true)
    (hnm : lun_mapped tpg_j stg = false)
    (hparse : (lun_id_of_path stg.path).isSome)
    (hfail : lunOk stg.name tpg_j.tag = false) :
    map_stg_go lunOk cfg stg (List.range w.gw.tpg_list.length) w
        = .ok { w with gw := { w.gw with
                                 error := true
                                 error_msg := "RTSLibError" } } ∧
    (∀ rest, map_luns_go lunOk cfg (stg :: rest) w
        = map_luns_go lunOk cfg rest
            { w with gw := { w.gw with
                               error := true
                               error_msg := "RTSLibError" } }) ∧
    (∀ (stg2 : StorageObject) (idxs : List Nat) (w2 w2' : World),
      map_stg_go lunOk cfg stg2 idxs w2 = .ok w2' →
      map_stg_go lunOk cfg stg2 idxs
          { w2 with gw := { w2.gw with
                              error := true
                              error_msg := "RTSLibError" } }
        = .ok { w2' with gw := { w2'.gw with
                                   error := true
                                   error_msg := "RTSLibError" } }) := by
  have hjlt : j < w.gw.tpg_list.length := (List.getElem?_eq_some_iff.mp hj).1
  have hfirst : map_stg_go lunOk cfg stg (List.range w.gw.tpg_list.length) w
      = .ok { w with gw := { w.gw with
                               error := true
                               error_msg := "RTSLibError" } } := by
    obtain ⟨m, hm⟩ : ∃ m, w.gw.tpg_list.length = j + (m + 1) :=
      ⟨w.gw.tpg_list.length - j - 1, by omega⟩
    have hsplit : List.range w.gw.tpg_list.length
        = List.range' 0 j ++ (j :: List.range' (j + 1) m) := by
      rw [hm, List.range_eq_range', Nat.add_comm j (m + 1),
        ← List.range'_append_1 0 j (m + 1), Nat.zero_add, List.range'_succ]
    rw [hsplit,
      map_stg_go_skip_all lunOk cfg stg (List.range' 0 j) _ w ?_]
    · rw [map_stg_go]
      simp only [hj]
      rw [if_neg (by simp [hnm])]
      obtain ⟨lid, hlid⟩ := Option.isSome_iff_exists.mp hparse
      simp only [hlid]
      rw [if_neg (by simp [hfail])]
    · intro i hi
      have hi' : i < j := by
        rw [List.mem_range'] at hi
        omega
      exact hpre i hi'
  refine ⟨hfirst, ?_, map_stg_go_error_override lunOk cfg⟩
  intro rest
  rw [map_luns_go]
  simp only [hfirst]

/-- C7 counterexample: with volumes `[vol1, vol2]`, TPGs `[tag 1, tag 2]`
and the LUN creation failing only for `(vol1, tag 1)`, the run records the
error but leaves `vol1` unmapped on TPG 2 (the claim says the other TPGs
are still attempted for it) while `vol2` is still mapped on TPG 1 (the
claim says the remaining volumes for that TPG are skipped): the claim has
the loop nesting backwards — the outer loop is over volumes, the inner
over TPGs. -/
theorem C7_counterexample :
    (map_luns lunOkCE cfgCE7 wCE7).toOption.map
        (fun w' => (w'.gw.error,
          w'.gw.tpg_list.map (fun t => t.luns.map (fun l => l.stg.name))))
      = some (true, [["vol2"], ["vol2"]]) := by
  decide

/-- Witness for C7 at a concrete failing `(vol1, tag 1)` pair. -/
theorem C7_map_luns_failure_witness :
    map_stg_go lunOkCE cfgCE7 stgCE1 (List.range wCE7.gw.tpg_list.length) wCE7
      = .ok { wCE7 with gw := { wCE7.gw with
                                  error := true
                                  error_msg := "RTSLibError" } } :=
  (C7_map_luns_failure lunOkCE cfgCE7 stgCE1 wCE7 0
    ⟨1, ["10.0.0.1"], true, false, []⟩ (by decide)
    (fun i hi => absurd hi (Nat.not_lt_zero i)) (by decide) (by decide)
    (by decide)).1

theorem dirty_flag_true_iff (c0 : Config) (host : String) (cur : List String) :
    dirty_flag c0 host cur = true ↔
      (c0.iqn_item = none ∨ c0.ip_list_item = none ∨
       pylookup c0.gateways host = none ∨
       ∃ e, pylookup c0.gateways host = some e ∧ e.gateway_ip_list ≠ cur) := by
  unfold dirty_flag
  rcases hlook : pylookup c0.gateways host with _ | e <;>
    simp [hlook, Option.isNone_iff_eq_none, or_assoc]

/-- The membership-record section returns the dirty flag exactly matching
`dirty_flag`, never touches the commit counter itself, and leaves the
record untouched when nothing changed. -/
theorem update_gateway_record_spec (host : String) (gw1 : GWTarget) (c0 : Config)
    (hcu : gw1.config_updated = false)
    (hactive : gw1.active_portal_ip ∈ gw1.gateway_ip_list) :
    (update_gateway_record host gw1 c0).map (fun pr => (pr.2, pr.1.commits))
        = .ok (dirty_flag c0 host gw1.gateway_ip_list, c0.commits) ∧
    (dirty_flag c0 host gw1.gateway_ip_list = false →
        update_gateway_record host gw1 c0 = .ok (c0, false)) := by
  unfold update_gateway_record dirty_flag
  by_cases hiqn : c0.iqn_item.isNone <;> by_cases hip : c0.ip_list_item.isNone <;>
    rcases hlook : pylookup c0.gateways host with _ | gwd
  · refine ⟨by simp [hiqn, hip, hlook, hactive, Except.map], fun hdf => ?_⟩
    simp [hiqn] at hdf
  · by_cases hne : gwd.gateway_ip_list ≠ gw1.gateway_ip_list <;>
      refine ⟨by simp [hiqn, hip, hlook, hactive, hne, Except.map], fun hdf => ?_⟩ <;>
      simp [hiqn] at hdf
  · refine ⟨by simp [hiqn, hip, hlook, hactive, Except.map], fun hdf => ?_⟩
    simp [hiqn] at hdf
  · by_cases hne : gwd.gateway_ip_list ≠ gw1.gateway_ip_list <;>
      refine ⟨by simp [hiqn, hip, hlook, hactive, hne, Except.map], fun hdf => ?_⟩ <;>
      simp [hiqn] at hdf
  · refine ⟨by simp [hiqn, hip, hlook, hactive, Except.map], fun hdf => ?_⟩
    simp [hiqn, hip] at hdf
  · by_cases hne : gwd.gateway_ip_list ≠ gw1.gateway_ip_list <;>
      refine ⟨by simp [hiqn, hip, hlook, hactive, hne, Except.map], fun hdf => ?_⟩ <;>
      simp [hiqn, hip] at hdf
  · refine ⟨by simp [hiqn, hip, hlook, hactive, Except.map], fun hdf => ?_⟩
    simp [hiqn, hip, hlook] at hdf
  · by_cases hne : gwd.gateway_ip_list ≠ gw1.gateway_ip_list
    · refine ⟨by simp [hiqn, hip, hlook, hactive, hne, Except.map], fun hdf => ?_⟩
      simp [hiqn, hip, hlook, hne] at hdf
    · refine ⟨by simp [hiqn, hip, hlook, hactive, hne, hcu, Except.map], fun hdf => ?_⟩
      simp [hiqn, hip, hlook, hne, hcu]

theorem create_tpg_config_updated (ok : Bool) (w : World) (ip : String) :
    (create_tpg ok w ip).gw.config_updated = w.gw.config_updated := by
  cases ok <;> simp [create_tpg]

theorem create_tpg_fold_config_updated (ok : String → Bool) (l : List String) :
    ∀ w : World,
      (l.foldl (fun acc ip => create_tpg (ok ip) acc ip) w).gw.config_updated
        = w.gw.config_updated := by
  induction l with
  | nil => intro w; rfl
  | cons ip rest ih =>
    intro w
    rw [List.foldl_cons]
    exact (ih _).trans (create_tpg_config_updated (ok ip) w ip)

theorem create_tpg_fold_error_true (ok : String → Bool) (l : List String) :
    ∀ w : World, (∀ ip ∈ l, ok ip = true) →
      (l.foldl (fun acc ip => create_tpg (ok ip) acc ip) w).gw.error
        = w.gw.error := by
  induction l with
  | nil => intro w _; rfl
  | cons ip rest ih =>
    intro w hok
    rw [List.foldl_cons]
    have h1 : (create_tpg (ok ip) w ip).gw.error = w.gw.error := by
      rw [hok ip (List.mem_cons_self ip rest)]
      simp [create_tpg]
    exact (ih _ (fun x hx => hok x (List.mem_cons_of_mem ip hx))).trans h1

/-- Unfolding of a successful `manage('target')` run over an existing
target. -/
theorem manage_target_eq (host : String) (tpgOk : String → Bool)
    (lunOk : String → Nat → Bool) (w : World) (pr : Config × Bool)
    (hex : w.kernel.target_exists = true)
    (herr1 : (check_tpgs tpgOk (load_config w)).gw.error = false)
    (hrun : update_gateway_record host (check_tpgs tpgOk (load_config w)).gw
              (check_tpgs tpgOk (load_config w)).cfg = .ok pr) :
    manage "target" false host true tpgOk lunOk w
      = .ok { (check_tpgs tpgOk (load_config w)) with
                cfg := if pr.2 then { pr.1 with commits := pr.1.commits + 1 }
                       else pr.1
                gw := { (check_tpgs tpgOk (load_config w)).gw with
                          config_updated := pr.2 } } := by
  unfold manage
  rw [if_neg Bool.false_ne_true, if_pos rfl, if_pos hex]
  simp only []
  rw [if_neg (show ¬((check_tpgs tpgOk (load_config w)).gw.error = true) by
    rw [herr1]; exact Bool.false_ne_true)]
  simp only [hrun]

/-- C10: in `manage('target')` (existing target, clean gateway object),
the shared configuration record is committed — the commit counter
incremented — if and only if at least one field was added or updated
during the run: the global `iqn` or `ip_list` item was absent, this
node's gateway entry was absent, or the stored `gateway_ip_list` differed
from the current list; when nothing changed, no commit is issued and the
record is untouched. -/
theorem C10_commit_iff (host : String) (lunOk : String → Nat → Bool) (w : World)
    (hex : w.kernel.target_exists = true)
    (herr : w.gw.error = false)
    (hcu : w.gw.config_updated = false)
    (hactive : w.gw.active_portal_ip ∈ w.gw.gateway_ip_list) :
    ∃ w', manage "target" false host true (fun _ => true) lunOk w = .ok w' ∧
      (w'.cfg.commits = w.cfg.commits + 1 ↔
        (w.cfg.iqn_item = none ∨ w.cfg.ip_list_item = none ∨
         pylookup w.cfg.gateways host = none ∨
         ∃ e, pylookup w.cfg.gateways host = some e ∧
           e.gateway_ip_list ≠ w.gw.gateway_ip_list)) ∧
      (dirty_flag w.cfg host w.gw.gateway_ip_list = false → w'.cfg = w.cfg) := by
  have hckeq : check_tpgs (fun _ => true) (load_config w)
      = (missing_tpg_ips (load_config w).gw.gateway_ip_list
          (load_config w).gw.tpg_list).foldl
          (fun acc ip => create_tpg ((fun _ : String => true) ip) acc ip)
          (load_config w) := rfl
  have hframe := create_tpg_fold_frame (fun _ => true)
      (missing_tpg_ips (load_config w).gw.gateway_ip_list
        (load_config w).gw.tpg_list) (load_config w)
  rw [← hckeq] at hframe
  have hcfg1 : (check_tpgs (fun _ => true) (load_config w)).cfg = w.cfg :=
    hframe.2.2.2.2.2.1
  have hgl1 : (check_tpgs (fun _ => true) (load_config w)).gw.gateway_ip_list
      = w.gw.gateway_ip_list := hframe.1
  have hact1 : (check_tpgs (fun _ => true) (load_config w)).gw.active_portal_ip
      = w.gw.active_portal_ip := hframe.2.2.1
  have herr1 : (check_tpgs (fun _ => true) (load_config w)).gw.error = false := by
    rw [hckeq, create_tpg_fold_error_true _ _ _ (fun _ _ => rfl)]
    exact herr
  have hcu1 : (check_tpgs (fun _ => true) (load_config w)).gw.config_updated
      = false := by
    rw [hckeq, create_tpg_fold_config_updated]
    exact hcu
  have hact1' : (check_tpgs (fun _ => true) (load_config w)).gw.active_portal_ip
      ∈ (check_tpgs (fun _ => true) (load_config w)).gw.gateway_ip_list := by
    rw [hact1, hgl1]; exact hactive
  obtain ⟨hspec1, hspec2⟩ := update_gateway_record_spec host
    (check_tpgs (fun _ => true) (load_config w)).gw
    (check_tpgs (fun _ => true) (load_config w)).cfg hcu1 hact1'
  have hflageq : dirty_flag (check_tpgs (fun _ => true) (load_config w)).cfg host
      (check_tpgs (fun _ => true) (load_config w)).gw.gateway_ip_list
      = dirty_flag w.cfg host w.gw.gateway_ip_list := by
    rw [hcfg1, hgl1]
  rcases hrun : update_gateway_record host
      (check_tpgs (fun _ => true) (load_config w)).gw
      (check_tpgs (fun _ => true) (load_config w)).cfg with e | pr
  · rw [hrun] at hspec1
    simp [Except.map] at hspec1
  · rw [hrun] at hspec1
    simp only [Except.map, Except.ok.injEq, Prod.mk.injEq] at hspec1
    obtain ⟨hpr2, hprc⟩ := hspec1
    rw [hflageq] at hpr2
    rw [hcfg1] at hprc
    have hm := manage_target_eq host (fun _ => true) lunOk w pr hex herr1 hrun
    refine ⟨_, hm, ?_, ?_⟩
    · rcases hflag : dirty_flag w.cfg host w.gw.gateway_ip_list with _ | _
      · -- clean: no commit happens
        have hpreq : pr = ((check_tpgs (fun _ => true) (load_config w)).cfg,
            false) := by
          have h2 := hspec2 (by rw [hflageq, hflag])
          rw [hrun] at h2
          exact (Except.ok.injEq _ _).mp h2
        constructor
        · intro hc
          rw [hpreq] at hc
          simp [hcfg1] at hc
        · intro hd
          exfalso
          have ht := (dirty_flag_true_iff w.cfg host w.gw.gateway_ip_list).mpr hd
          rw [hflag] at ht
          cases ht
      · -- dirty: commit increments the counter
        have hpr2' : pr.2 = true := by rw [hpr2, hflag]
        constructor
        · intro _
          exact (dirty_flag_true_iff w.cfg host w.gw.gateway_ip_list).mp hflag
        · intro _
          simp [hpr2', hprc]
    · intro hflag
      have hpreq : pr = ((check_tpgs (fun _ => true) (load_config w)).cfg,
          false) := by
        have h2 := hspec2 (by rw [hflageq, hflag])
        rw [hrun] at h2
        exact (Except.ok.injEq _ _).mp h2
      rw [hpreq]
      simp [hcfg1]

/-- Witness for C10 at a concrete world whose record lacks the global
`iqn` item (a dirty run). -/
theorem C10_commit_iff_witness :
    ∃ w', manage "target" false "gw1" true (fun _ => true) (fun _ _ => true) wW1
        = .ok w' ∧
      (w'.cfg.commits = wW1.cfg.commits + 1 ↔
        (wW1.cfg.iqn_item = none ∨ wW1.cfg.ip_list_item = none ∨
         pylookup wW1.cfg.gateways "gw1" = none ∨
         ∃ e, pylookup wW1.cfg.gateways "gw1" = some e ∧
           e.gateway_ip_list ≠ wW1.gw.gateway_ip_list)) ∧
      (dirty_flag wW1.cfg "gw1" wW1.gw.gateway_ip_list = false →
        w'.cfg = wW1.cfg) :=
  C10_commit_iff "gw1" (fun _ _ => true) wW1 rfl rfl rfl (by decide)

theorem countP_le_one_unique {α : Type} (p : α → Bool) :
    ∀ (l : List α), l.countP p ≤ 1 →
      ∀ a ∈ l, p a = true → ∀ b ∈ l, p b = true → a = b := by
  intro l
  induction l with
  | nil => intro _ a ha; cases ha
  | cons x xs ih =>
    intro h a ha hpa b hb hpb
    rw [List.countP_cons] at h
    rcases List.mem_cons.mp ha with rfl | ha'
    · rcases List.mem_cons.mp hb with rfl | hb'
      · rfl
      · exfalso
        rw [hpa] at h
        simp only [if_true] at h
        have hpos : 0 < xs.countP p := List.countP_pos_iff.mpr ⟨b, hb', hpb⟩
        omega
    · rcases List.mem_cons.mp hb with rfl | hb'
      · exfalso
        rw [hpb] at h
        simp only [if_true] at h
        have hpos : 0 < xs.countP p := List.countP_pos_iff.mpr ⟨a, ha', hpa⟩
        omega
      · have hxs : xs.countP p ≤ 1 := by omega
        exact ih hxs a ha' hpa b hb' hpb

theorem AluaInv_set (pairs : List (Nat × Option String)) (cfg : Config)
    (alua : List ((String × String) × ALUAGroup)) (n0 sname : String)
    (g2 : ALUAGroup)
    (hinv : AluaInv pairs cfg alua)
    (ha : sname = "ao" → ∀ p ∈ pairs, matchOwnerB cfg n0 p = true → g2.tpg_id = p.1)
    (hb : ∀ k, sname = "ano" ++ natDecimal k → g2.tpg_id = k) :
    AluaInv pairs cfg (alua_set alua (n0, sname) g2) := by
  intro n s g hg
  by_cases hk : (n, s) = (n0, sname)
  · have h1 : n = n0 := congrArg Prod.fst hk
    have h2 : s = sname := congrArg Prod.snd hk
    subst h1; subst h2
    rw [alua_set_lookup_self] at hg
    cases hg
    exact ⟨ha, hb⟩
  · rw [alua_set_lookup_ne _ _ _ _ hk] at hg
    exact hinv n s g hg

theorem bind_alua_no_raise (cfg : Config)
    (alua : List ((String × String) × ALUAGroup)) (lun : LUN) (tpg : TPG)
    (pairs : List (Nat × Option String))
    (hinv : AluaInv pairs cfg alua)
    (hsafe : SafeStg cfg pairs lun.stg)
    (hmem : (tpg.tag, tpg.portals.head?) ∈ pairs) :
    ∃ alua', bind_alua_group_to_lun cfg alua lun tpg none = .ok alua' ∧
      AluaInv pairs cfg alua' := by
  obtain ⟨hlid, ⟨ow, hdisk, hgwsome⟩, hcount⟩ := hsafe
  rcases hgwe : pylookup cfg.gateways ow with _ | gwe
  · rw [hgwe] at hgwsome; cases hgwsome
  unfold bind_alua_group_to_lun
  simp only [hdisk]
  rcases hhd : tpg.portals.head? with _ | ip
  · exact ⟨alua, rfl, hinv⟩
  rw [hhd] at hmem
  simp only [hgwe]
  by_cases hao : gwe.portal_ip_address = ip
  · -- owner match: the "ao" group
    have hm0 : matchOwnerB cfg lun.stg.name (tpg.tag, some ip) = true := by
      unfold matchOwnerB ownerIp
      simp only [hdisk, hgwe]
      simp [hao]
    simp only [if_pos hao]
    rcases hlk : pylookup alua (lun.stg.name, "ao") with _ | g
    · -- fresh creation
      simp only [alua_create, hlk]
      refine ⟨_, rfl, ?_⟩
      apply AluaInv_set _ _ _ _ _ _ hinv
      · intro _ p hp hpB
        have := countP_le_one_unique (matchOwnerB cfg lun.stg.name) pairs hcount
          p hp hpB (tpg.tag, some ip) hmem hm0
        rw [this]
      · intro k hk
        exact absurd hk.symm (anoName_ne_ao k)
    · -- group already exists: re-attach, tags agree by the invariant
      have htag : g.tpg_id = tpg.tag :=
        (hinv lun.stg.name "ao" g hlk).1 rfl (tpg.tag, some ip) hmem hm0
      simp only [alua_create, alua_get, hlk]
      rw [if_neg (by simp [htag])]
      refine ⟨_, rfl, ?_⟩
      apply AluaInv_set _ _ _ _ _ _ hinv
      · intro _ p hp hpB
        have := countP_le_one_unique (matchOwnerB cfg lun.stg.name) pairs hcount
          p hp hpB (tpg.tag, some ip) hmem hm0
        rw [this]
        exact htag
      · intro k hk
        exact absurd hk.symm (anoName_ne_ao k)
  · -- owner mismatch: the "ano<tag>" group
    simp only [if_neg hao]
    rcases hlk : pylookup alua (lun.stg.name, "ano" ++ natDecimal tpg.tag) with _ | g
    · simp only [alua_create, hlk]
      refine ⟨_, rfl, ?_⟩
      apply AluaInv_set _ _ _ _ _ _ hinv
      · intro hk
        exact absurd hk (anoName_ne_ao tpg.tag)
      · intro k hk
        rw [anoName_inj tpg.tag k hk]
    · have htag : g.tpg_id = tpg.tag :=
        (hinv lun.stg.name _ g hlk).2 tpg.tag rfl
      simp only [alua_create, alua_get, hlk]
      rw [if_neg (by simp [htag])]
      refine ⟨_, rfl, ?_⟩
      apply AluaInv_set _ _ _ _ _ _ hinv
      · intro hk
        exact absurd hk (anoName_ne_ao tpg.tag)
      · intro k hk
        rw [htag, anoName_inj tpg.tag k hk]

theorem map_set_eq_of_key {α β : Type} (f : α → β) :
    ∀ (l : List α) (i : Nat) (a b : α), l[i]? = some b → f a = f b →
      (l.set i a).map f = l.map f := by
  intro l
  induction l with
  | nil => intro i a b h; cases h
  | cons x xs ih =>
    intro i a b h hf
    cases i with
    | zero =>
      simp only [List.getElem?_cons_zero] at h
      cases h
      simp [List.set, hf]
    | succ j =>
      simp only [List.getElem?_cons_succ] at h
      simp only [List.set, List.map_cons]
      rw [ih j a b h hf]

theorem map_stg_go_no_raise (lunOk : String → Nat → Bool) (cfg : Config)
    (stg : StorageObject) :
    ∀ (idxs : List Nat) (w : World),
      AluaInv (w.gw.tpg_list.map tpgkey) cfg w.kernel.alua →
      SafeStg cfg (w.gw.tpg_list.map tpgkey) stg →
      ∃ w', map_stg_go lunOk cfg stg idxs w = .ok w' ∧
        w'.gw.tpg_list.map tpgkey = w.gw.tpg_list.map tpgkey ∧
        AluaInv (w'.gw.tpg_list.map tpgkey) cfg w'.kernel.alua := by
  intro idxs
  induction idxs with
  | nil => intro w hinv _; exact ⟨w, rfl, rfl, hinv⟩
  | cons i rest ih =>
    intro w hinv hsafe
    rw [map_stg_go]
    rcases hget : w.gw.tpg_list[i]? with _ | tpg
    · exact ⟨w, rfl, rfl, hinv⟩
    simp only [hget]
    by_cases hmapped : lun_mapped tpg stg
    · rw [if_pos hmapped]
      exact ih w hinv hsafe
    rw [if_neg hmapped]
    rcases hparse : lun_id_of_path stg.path with _ | lid
    · exact absurd hsafe.1 (by rw [hparse]; simp)
    simp only [hparse]
    by_cases hok : lunOk stg.name tpg.tag
    · rw [if_pos hok]
      have hmem : (tpg.tag, tpg.portals.head?) ∈ w.gw.tpg_list.map tpgkey :=
        List.mem_map_of_mem tpgkey (List.getElem?_mem hget)
      obtain ⟨alua2, hbind, hinv2⟩ := bind_alua_no_raise cfg w.kernel.alua
        { id := lid, stg := stg }
        { tpg with luns := tpg.luns ++ [{ id := lid, stg := stg }] }
        (w.gw.tpg_list.map tpgkey) hinv hsafe hmem
      simp only [hbind]
      have hpairs :
          ((w.gw.tpg_list.set i
            { tpg with luns := tpg.luns ++ [{ id := lid, stg := stg }] }).map tpgkey)
          = w.gw.tpg_list.map tpgkey :=
        map_set_eq_of_key tpgkey w.gw.tpg_list i _ tpg hget rfl
      have hinv2' : AluaInv ((w.gw.tpg_list.set i
            { tpg with luns := tpg.luns ++ [{ id := lid, stg := stg }] }).map tpgkey)
          cfg alua2 := by rw [hpairs]; exact hinv2
      have hsafe' : SafeStg cfg ((w.gw.tpg_list.set i
            { tpg with luns := tpg.luns ++ [{ id := lid, stg := stg }] }).map tpgkey)
          stg := by rw [hpairs]; exact hsafe
      obtain ⟨w', hrun, hp, hi⟩ := ih
        { w with
            gw := { w.gw with
                      tpg_list := w.gw.tpg_list.set i
                        { tpg with luns := tpg.luns ++ [{ id := lid, stg := stg }] }
                      changes_made := true }
            kernel := { w.kernel with alua := alua2 } } hinv2' hsafe'
      refine ⟨w', hrun, ?_, hi⟩
      rw [hp]
      exact hpairs
    · rw [if_neg hok]
      exact ⟨_, rfl, rfl, hinv⟩

theorem map_luns_go_no_raise (lunOk : String → Nat → Bool) (cfg : Config) :
    ∀ (ss : List StorageObject) (w : World),
      AluaInv (w.gw.tpg_list.map tpgkey) cfg w.kernel.alua →
      (∀ stg ∈ ss, SafeStg cfg (w.gw.tpg_list.map tpgkey) stg) →
      ∃ w', map_luns_go lunOk cfg ss w = .ok w' := by
  intro ss
  induction ss with
  | nil => intro w _ _; exact ⟨w, rfl⟩
  | cons stg rest ih =>
    intro w hinv hsafe
    obtain ⟨w2, hrun, hp, hi⟩ := map_stg_go_no_raise lunOk cfg stg
      (List.range w.gw.tpg_list.length) w hinv (hsafe stg (List.mem_cons_self stg rest))
    rw [map_luns_go]
    simp only [hrun]
    apply ih w2 hi
    intro s hs
    rw [hp]
    exact hsafe s (List.mem_cons_of_mem stg hs)

theorem except_pr_ok_of_toOption {e : Except PyError (Config × Bool)}
    {x : Config × Bool} (h : e.toOption = some x) : e = .ok x := by
  cases e with
  | error err => simp [Except.toOption] at h
  | ok a => simp [Except.toOption] at h; rw [h]

theorem update_gateway_record_ok (host : String) (gw1 : GWTarget) (c0 : Config)
    (h : gw1.active_portal_ip ∈ gw1.gateway_ip_list) :
    ∃ pr, update_gateway_record host gw1 c0 = .ok pr := by
  suffices hs : (update_gateway_record host gw1 c0).toOption.isSome = true by
    rcases ho : (update_gateway_record host gw1 c0).toOption with _ | pr
    · rw [ho] at hs; cases hs
    · exact ⟨pr, except_pr_ok_of_toOption ho⟩
  unfold update_gateway_record
  by_cases hiqn : c0.iqn_item.isNone <;> by_cases hip : c0.ip_list_item.isNone <;>
    rcases hlook : pylookup c0.gateways host with _ | gwd
  · simp [hiqn, hip, hlook, h, Except.toOption]
  · by_cases hne : gwd.gateway_ip_list ≠ gw1.gateway_ip_list <;>
      simp [hiqn, hip, hlook, h, hne, Except.toOption]
  · simp [hiqn, hip, hlook, h, Except.toOption]
  · by_cases hne : gwd.gateway_ip_list ≠ gw1.gateway_ip_list <;>
      simp [hiqn, hip, hlook, h, hne, Except.toOption]
  · simp [hiqn, hip, hlook, h, Except.toOption]
  · by_cases hne : gwd.gateway_ip_list ≠ gw1.gateway_ip_list <;>
      simp [hiqn, hip, hlook, h, hne, Except.toOption]
  · simp [hiqn, hip, hlook, h, Except.toOption]
  · by_cases hne : gwd.gateway_ip_list ≠ gw1.gateway_ip_list <;>
      simp [hiqn, hip, hlook, h, hne, Except.toOption]

theorem create_target_ok (tpgOk : String → Bool) (w : World) :
    ∃ w', create_target true tpgOk w = .ok w' ∧
      w'.gw.active_portal_ip = w.gw.active_portal_ip ∧
      w'.gw.gateway_ip_list = w.gw.gateway_ip_list := by
  set w1 : World :=
    { w with gw := { w.gw with target := some w.gw.iqn }
             kernel := { w.kernel with target_exists := true } } with hw1
  have hframe := create_tpg_fold_frame tpgOk w.gw.gateway_ip_list w1
  set w2 : World :=
    w.gw.gateway_ip_list.foldl (fun acc ip => create_tpg (tpgOk ip) acc ip) w1 with hw2
  have hct : create_target true tpgOk w
      = if w2.gw.error = true then gwDelete w2
        else .ok { w2 with gw := { w2.gw with changes_made := true } } := rfl
  have htgt2 : w2.gw.target = some w.gw.iqn := hframe.2.2.2.2.1.trans rfl
  have hact : w2.gw.active_portal_ip = w.gw.active_portal_ip :=
    hframe.2.2.1.trans rfl
  have hlist : w2.gw.gateway_ip_list = w.gw.gateway_ip_list := hframe.1.trans rfl
  rcases Bool.eq_false_or_eq_true w2.gw.error with he | he
  · refine ⟨{ w2 with kernel := { w2.kernel with target_exists := false, tpgs := [] } },
      ?_, hact, hlist⟩
    rw [hct, if_pos he]
    unfold gwDelete
    rw [htgt2]
  · refine ⟨{ w2 with gw := { w2.gw with changes_made := true } }, ?_, hact, hlist⟩
    rw [hct, if_neg (by rw [he]; exact Bool.false_ne_true)]

/-- C6 counterexample: in 'map' mode with a pre-existing kernel ALUA group
for `vol1` whose recorded TPG tag (5) differs from the current TPG's tag
(1), the `RTSLibError` raised by the ALUA binder propagates out of
`manage` instead of being reported through the error flag. -/
theorem C6_counterexample :
    manage "map" false "host1" true (fun _ => true) (fun _ _ => true) wCE6
      = .error PyError.rtslib := rfl

/-- C6 (amended): `manage` reports failures through the gateway object's
error flag/message only under extra assumptions — exceptions do escape in
general.  In 'target' mode, `manage` returns normally provided the target
already exists or the kernel target creation succeeds (otherwise the
rollback's `AttributeError` escapes) and the active portal IP is in the
configured list (otherwise `ValueError` escapes from the record update);
in 'map' mode it returns normally provided every storage object has a
parseable kernel path, an owner resolvable through the shared record, and
at most one TPG on the owner's portal, and the kernel's pre-existing ALUA
groups agree with the current topology (otherwise `ValueError`,
`KeyError` or the TopologyMismatch `RTSLibError` escapes). -/
theorem C6_no_raise (mode host : String) (targetOk : Bool) (tpgOk : String → Bool)
    (lunOk : String → Nat → Bool) (w : World) (cfgError : Bool)
    (hmode : mode = "target" ∨ mode = "map")
    (htgt : mode = "target" →
      (w.kernel.target_exists = true ∨ targetOk = true) ∧
      w.gw.active_portal_ip ∈ w.gw.gateway_ip_list)
    (hmap : mode = "map" → w.kernel.target_exists = true →
      AluaInv ((w.gw.tpg_list ++ w.kernel.tpgs).map tpgkey) w.cfg w.kernel.alua ∧
      ∀ stg ∈ w.kernel.storage_objects,
        SafeStg w.cfg ((w.gw.tpg_list ++ w.kernel.tpgs).map tpgkey) stg) :
    ∃ w', manage mode cfgError host targetOk tpgOk lunOk w = .ok w' := by
  unfold manage
  rcases Bool.eq_false_or_eq_true cfgError with hc | hc
  · rw [if_pos hc]; exact ⟨_, rfl⟩
  rw [if_neg (by rw [hc]; exact Bool.false_ne_true)]
  rcases hmode with rfl | rfl
  · -- 'target' mode
    rw [if_pos rfl]
    obtain ⟨hsrc, hactive⟩ := htgt rfl
    rcases Bool.eq_false_or_eq_true w.kernel.target_exists with hte | hte
    · rw [if_pos hte]
      simp only []
      have hact1 : (check_tpgs tpgOk (load_config w)).gw.active_portal_ip
          = w.gw.active_portal_ip :=
        (create_tpg_fold_frame tpgOk
          (missing_tpg_ips (load_config w).gw.gateway_ip_list
            (load_config w).gw.tpg_list) (load_config w)).2.2.1
      have hlist1 : (check_tpgs tpgOk (load_config w)).gw.gateway_ip_list
          = w.gw.gateway_ip_list :=
        (create_tpg_fold_frame tpgOk
          (missing_tpg_ips (load_config w).gw.gateway_ip_list
            (load_config w).gw.tpg_list) (load_config w)).1
      rcases Bool.eq_false_or_eq_true (check_tpgs tpgOk (load_config w)).gw.error
        with he | he
      · rw [if_pos he]; exact ⟨_, rfl⟩
      · rw [if_neg (by rw [he]; exact Bool.false_ne_true)]
        obtain ⟨pr, hpr⟩ := update_gateway_record_ok host
          (check_tpgs tpgOk (load_config w)).gw
          (check_tpgs tpgOk (load_config w)).cfg
          (by rw [hact1, hlist1]; exact hactive)
        simp only [hpr]
        exact ⟨_, rfl⟩
    · rcases hsrc with hsrc | hsrc
      · rw [hte] at hsrc; exact absurd hsrc Bool.false_ne_true
      · subst hsrc
        obtain ⟨w1, hw1, hact1, hlist1⟩ := create_target_ok tpgOk w
        rw [if_neg (by rw [hte]; exact Bool.false_ne_true)]
        simp only [hw1]
        rcases Bool.eq_false_or_eq_true w1.gw.error with he | he
        · rw [if_pos he]; exact ⟨_, rfl⟩
        · rw [if_neg (by rw [he]; exact Bool.false_ne_true)]
          obtain ⟨pr, hpr⟩ := update_gateway_record_ok host w1.gw w1.cfg
            (by rw [hact1, hlist1]; exact hactive)
          simp only [hpr]
          exact ⟨_, rfl⟩
  · -- 'map' mode
    rw [if_neg (by decide), if_pos rfl]
    rcases Bool.eq_false_or_eq_true w.kernel.target_exists with hte | hte
    · rw [if_pos hte]
      obtain ⟨hinv, hsafe⟩ := hmap rfl hte
      exact map_luns_go_no_raise lunOk w.cfg w.kernel.storage_objects
        (load_config w) hinv hsafe
    · rw [if_neg (by rw [hte]; exact Bool.false_ne_true)]
      exact ⟨_, rfl⟩

/-- Witness for the amended C6 at a concrete 'target'-mode invocation. -/
theorem C6_no_raise_witness :
    ∃ w', manage "target" false "host1" true (fun _ => true) (fun _ _ => true) wW1
      = .ok w' :=
  C6_no_raise "target" "host1" true (fun _ => true) (fun _ _ => true) wW1 false
    (Or.inl rfl)
    (fun _ => ⟨Or.inr rfl, by decide⟩)
    (fun hm => absurd hm (by decide))
